import Mathlib

/-!
# ChatIQ: session and conversation synchronisation engine

A shallow embedding of `src/main.js`.  Module-level variables of the script
become fields of `State`; a synchronous function becomes a function on
`State`; an `async` function is cut at its `await`s into synchronous
segments, and the remote store, the completion service and the user's
interleaved actions are explicit parameters.  Strings are Lean strings;
where the script counts the UTF-16 code units of a string (`length`,
`substring`), a character outside the basic plane counts as two.
-/

namespace ChatIQ

/-! ## Values -/

/-- The sentinel id of a chat that has no stored session yet. -/
def TEMP_NEW_SESSION : String := "TEMP_NEW_SESSION"

/-- Truthiness of a script value that is `null` or a string:
`null` and the empty string are falsy. -/
def truthy : Option String → Bool
  | none => false
  | some v => v != ""

/-- Text of a null-or-string value inside a template literal. -/
def interpolate : Option String → String
  | none => "null"
  | some v => v

/-- One entry `{ sender, content }` of `conversationMemory.shortTerm`. -/
structure Entry where
  sender : String
  content : String
  deriving DecidableEq, Repr

/-- The data of a message document: `{ sender, type, content, mimeType }`. -/
structure MessageData where
  sender : String
  type : String
  content : String
  mimeType : Option String := none
  deriving DecidableEq, Repr

/-- A listener registered by `onSnapshot`: the id its query path is bound to
(a session id for a message list, a user id for a session list) and whether
it is still live.  The handle returned by `onSnapshot` is the position of
the listener in the registry. -/
structure Subscription where
  target : String
  live : Bool
  deriving DecidableEq, Repr

/-- One part of a turn sent to the completion service. -/
inductive Part where
  /-- The part `{ text }`. -/
  | text (text : String)
  /-- The part `{ inlineData: { mimeType, data } }`. -/
  | inlineData (mimeType : String) (data : String)
  deriving DecidableEq, Repr

/-- One turn `{ role, parts }` of the `contents` list. -/
structure Content where
  role : String
  parts : List Part
  deriving DecidableEq, Repr

/-- A write issued to the remote store. -/
inductive Write where
  /-- Line 364: `addDoc` on the user's `sessions` collection. -/
  | createSession (user : String) (title : String)
  /-- Line 382: `addDoc` on the `messages` collection of a session. -/
  | appendMessage (user : String) (session : String) (message : MessageData)
  /-- Line 385: `updateDoc` of `lastActivity` on a session document. -/
  | updateActivity (user : String) (session : String)
  /-- Line 708: `addDoc` on the `feedback` collection. -/
  | appendFeedback (user : String) (session : Option String) (messageId : String)
      (feedbackType : String) (content : String)
  deriving DecidableEq, Repr

/-- The module-level state of the script, with the registries of the
listeners it opened and the log of the writes it issued. -/
structure State where
  /-- Line 78. -/
  currentUserId : Option String := none
  /-- Line 78. -/
  activeSessionId : Option String := none
  /-- Line 79: the handle of the last message-list listener, or `null`. -/
  messagesUnsubscribe : Option Nat := none
  /-- Line 79: the handle of the last session-list listener, or `null`. -/
  sessionsUnsubscribe : Option Nat := none
  /-- Every message-list listener opened so far, in opening order. -/
  messageSubs : List Subscription := []
  /-- Every session-list listener opened so far, in opening order. -/
  sessionSubs : List Subscription := []
  /-- Line 82: `conversationMemory.shortTerm`. -/
  shortTerm : List Entry := []
  /-- Line 83: `conversationMemory.longTerm`, as (session key, note key, value). -/
  longTerm : List (String × String × String) := []
  /-- The `activeChatIQSessionId` item of `sessionStorage`. -/
  sessionStorage : Option String := none
  /-- Line 77. -/
  currentBase64Image : Option String := none
  /-- Line 77. -/
  currentMimeType : Option String := none
  /-- The value of the `userInput` element. -/
  userInput : String := ""
  /-- Whether the `chatBox` element was found (line 108). -/
  chatBox : Bool := true
  /-- Whether the `chatBoxWrapper` element was found (line 109). -/
  chatBoxWrapper : Bool := true
  /-- Whether the `sessionsList` element was found (line 132). -/
  sessionsListEl : Bool := true
  /-- Every write issued to the store, in issue order. -/
  writes : List Write := []
  /-- Every payload handed to the completion service, in call order. -/
  completions : List (List Content) := []
  /-- The arguments of every `showError` call, in call order. -/
  errors : List String := []
  deriving Repr

/-! ## `conversationMemory` (lines 81-89) -/

/-- Line 84: `push`, then `shift` when the length exceeds 20. -/
def addMessage (s : State) (sender content : String) : State :=
  let pushed := s.shortTerm ++ [{ sender := sender, content := content }]
  { s with shortTerm := if pushed.length > 20 then pushed.tail else pushed }

/-- Line 86. -/
def clearShortTerm (s : State) : State :=
  { s with shortTerm := [] }

/-- A call on `conversationMemory` that touches `shortTerm`. -/
inductive MemoryCall where
  | addMessage (sender content : String)
  | clearShortTerm
  deriving Repr

/-- Run one call. -/
def MemoryCall.run (s : State) : MemoryCall → State
  | .addMessage sender content => ChatIQ.addMessage s sender content
  | .clearShortTerm => ChatIQ.clearShortTerm s

/-- Run a sequence of calls, first to last. -/
def runMemoryCalls (s : State) (calls : List MemoryCall) : State :=
  calls.foldl MemoryCall.run s

/-! ## The message-list snapshot callback (lines 399-412) -/

/-- Line 408: the window entry of a message. -/
def windowEntry (msg : MessageData) : Entry :=
  { sender := msg.sender, content := if msg.type = "image" then "[Image]" else msg.content }

/-- Lines 399-412, the callback handed to `onSnapshot` by `loadChatHistory`,
on a snapshot given as its documents in snapshot order.  Rendering into the
chat box is left out; the guard of line 400 is kept. -/
def onMessagesSnapshot (s : State) (snapshot : List MessageData) : State :=
  if !s.chatBox || !s.chatBoxWrapper then s
  else
    snapshot.foldl
      (fun acc msg => addMessage acc msg.sender (if msg.type = "image" then "[Image]" else msg.content))
      (clearShortTerm s)

/-! ## Listeners -/

/-- Invoke the unsubscribe handle `h`: the listener at position `h` stops
being live; invoking it again changes nothing. -/
def cancelAt : Nat → List Subscription → List Subscription
  | _, [] => []
  | 0, x :: xs => { x with live := false } :: xs
  | h + 1, x :: xs => x :: cancelAt h xs

/-- The statement `if (handle) handle();` on a handle variable. -/
def invokeHandle (handle : Option Nat) (subs : List Subscription) : List Subscription :=
  match handle with
  | none => subs
  | some h => cancelAt h subs

/-- The listeners of a registry that are live. -/
def liveSubs (subs : List Subscription) : List Subscription :=
  subs.filter (fun x => x.live)

/-! ## Synchronous session operations -/

/-- Lines 392-413: cancel the previous message-list listener and open one
on the messages of `sessionIdToLoad`. -/
def loadChatHistory (s : State) (sessionIdToLoad : String) : State :=
  if !truthy s.currentUserId || sessionIdToLoad == "" || sessionIdToLoad == TEMP_NEW_SESSION then s
  else
    let subs := invokeHandle s.messagesUnsubscribe s.messageSubs
    { s with
      messageSubs := subs ++ [{ target := sessionIdToLoad, live := true }]
      messagesUnsubscribe := some subs.length }

/-- Lines 310-337: cancel the previous session-list listener and open one
on the sessions of the current user. -/
def loadChatSessions (s : State) : State :=
  if !truthy s.currentUserId || !s.sessionsListEl then s
  else
    let subs := invokeHandle s.sessionsUnsubscribe s.sessionSubs
    { s with
      sessionSubs := subs ++ [{ target := interpolate s.currentUserId, live := true }]
      sessionsUnsubscribe := some subs.length }

/-- Lines 339-353. -/
def selectSession (s : State) (sessionId : String) : State :=
  if sessionId == "" || s.activeSessionId == some sessionId then s
  else
    let s1 := { s with activeSessionId := some sessionId, sessionStorage := some sessionId }
    let s2 := { s1 with messageSubs := invokeHandle s1.messagesUnsubscribe s1.messageSubs }
    loadChatHistory s2 sessionId

/-- Lines 267-284 (the DOM updates are left out). -/
def startNewUnsavedChat (s : State) : State :=
  clearShortTerm { s with activeSessionId := some TEMP_NEW_SESSION, sessionStorage := none }

/-- Lines 228-246 (the DOM updates are left out). -/
def updateUIToLoggedOutState (s : State) : State :=
  let s1 := { s with currentUserId := none, activeSessionId := none }
  let s2 := { s1 with messageSubs := invokeHandle s1.messagesUnsubscribe s1.messageSubs }
  { s2 with sessionSubs := invokeHandle s2.sessionsUnsubscribe s2.sessionSubs }

/-- Line 577 (the DOM updates are left out). -/
def removeImagePreview (s : State) : State :=
  { s with currentBase64Image := none, currentMimeType := none }

/-- Lines 517-522: a call of `showError`. -/
def showError (s : State) (messageText : String) : State :=
  { s with errors := s.errors ++ [messageText] }

/-- A synchronous handler that can run between two segments of an
asynchronous function. -/
inductive Op where
  | selectSession (sessionId : String)
  | startNewUnsavedChat
  | updateUIToLoggedOutState
  | loadChatSessions
  | loadChatHistory (sessionIdToLoad : String)
  /-- The store delivers a snapshot to the callback of message-list listener `handle`. -/
  | messagesSnapshot (handle : Nat) (snapshot : List MessageData)
  deriving Repr

/-- Whether listener `handle` of a registry is live. -/
def isLive (subs : List Subscription) (handle : Nat) : Bool :=
  match subs[handle]? with
  | some x => x.live
  | none => false

/-- Run one handler. A snapshot is delivered only to a live listener. -/
def Op.run (s : State) : Op → State
  | .selectSession sessionId => ChatIQ.selectSession s sessionId
  | .startNewUnsavedChat => ChatIQ.startNewUnsavedChat s
  | .updateUIToLoggedOutState => ChatIQ.updateUIToLoggedOutState s
  | .loadChatSessions => ChatIQ.loadChatSessions s
  | .loadChatHistory sessionIdToLoad => ChatIQ.loadChatHistory s sessionIdToLoad
  | .messagesSnapshot handle snapshot =>
      if isLive s.messageSubs handle then onMessagesSnapshot s snapshot else s

/-- Run handlers one after another. -/
def runOps (s : State) (ops : List Op) : State :=
  ops.foldl Op.run s

/-! ## `saveMessageToFirestore` (lines 355-390) -/

/-- The number of UTF-16 code units a character takes in a string of the script. -/
def codeUnits (c : Char) : Nat :=
  if c.toNat < 0x10000 then 1 else 2

/-- The property `length` of a string: its number of UTF-16 code units. -/
def jsLength (v : String) : Nat :=
  (v.toList.map codeUnits).sum

/-- The method `substring(0, n)` on the characters of a string: its first `n`
code units.  When the cut falls inside a character of two units the script
keeps the first of them, a lone surrogate; a Lean string cannot hold one,
and U+FFFD, which a lone surrogate reads as in a well-formed string, stands
for it. -/
def substringFromStart : List Char → Nat → List Char
  | [], _ => []
  | c :: cs, n =>
      if n = 0 then []
      else if codeUnits c ≤ n then c :: substringFromStart cs (n - codeUnits c)
      else [Char.ofNat 0xFFFD]

/-- Lines 361 and 365: the title of a session created for a first message. -/
def sessionTitle (content : String) : String :=
  String.mk (substringFromStart content.toList 35) ++
    (if jsLength content > 35 then "..." else "")

/-- Where a call of `saveMessageToFirestore` stands: returned, or suspended
at one of its three `await`s. -/
inductive SavePoint where
  /-- The call has returned `messageId` (or `null`). -/
  | returned (messageId : Option String)
  /-- Suspended at line 364, the create-session write is pending. -/
  | awaitCreate
  /-- Suspended at line 382, the append-message write is pending. -/
  | awaitAppend (sessionToSaveToId : Option String)
  /-- Suspended at line 385, the update-activity write is pending. -/
  | awaitUpdate (sessionToSaveToId : Option String) (messageId : String)
  deriving DecidableEq, Repr

/-- Lines 380-382 up to the `await`: issue the append-message write. -/
def issueAppend (s : State) (sessionToSaveToId : Option String) (messageData : MessageData) :
    State × SavePoint :=
  ({ s with writes := s.writes ++
      [.appendMessage (interpolate s.currentUserId) (interpolate sessionToSaveToId) messageData] },
   .awaitAppend sessionToSaveToId)

/-- Lines 356-368 (or 356-360 and 380-382): from the call to the first `await`. -/
def saveCall (s : State) (messageData : MessageData) : State × SavePoint :=
  if !truthy s.currentUserId then (s, .returned none)
  else if s.activeSessionId = some TEMP_NEW_SESSION then
    ({ s with writes := s.writes ++
        [.createSession (interpolate s.currentUserId) (sessionTitle messageData.content)] },
     .awaitCreate)
  else issueAppend s s.activeSessionId messageData

/-- The segment that runs when the pending write settles: `result` is the
id of the created document, or `none` when the write is rejected. -/
def saveResume (s : State) (messageData : MessageData) (point : SavePoint)
    (result : Option String) : State × SavePoint :=
  match point, result with
  | .returned messageId, _ => (s, .returned messageId)
  -- lines 369-372, then 380-382
  | .awaitCreate, some id =>
      let s1 := { s with activeSessionId := some id, sessionStorage := some id }
      issueAppend (loadChatHistory s1 id) (some id) messageData
  -- lines 373-377
  | .awaitCreate, none => (showError s "Could not start a new chat.", .returned none)
  -- lines 383-385
  | .awaitAppend sessionToSaveToId, some docId =>
      ({ s with writes := s.writes ++
          [.updateActivity (interpolate s.currentUserId) (interpolate sessionToSaveToId)] },
       .awaitUpdate sessionToSaveToId docId)
  -- lines 386-389 from line 382
  | .awaitAppend _, none => (s, .returned none)
  -- line 389, also through the catch of line 386 from line 385
  | .awaitUpdate _ messageId, _ => (s, .returned (some messageId))

/-- What happens at one `await`: the handlers that run while the caller is
suspended, and what the awaited call settles to (`none`: it rejects). -/
structure Await where
  during : List Op := []
  result : Option String
  deriving Repr

/-- The three awaited writes of one `saveMessageToFirestore` call. -/
structure SaveEnv where
  create : Await
  append : Await
  update : Await
  deriving Repr

/-- Resume a suspended call once, after the handlers of that `await`. -/
def saveAdvance (env : SaveEnv) (messageData : MessageData) (p : State × SavePoint) :
    State × SavePoint :=
  match p.2 with
  | .returned _ => p
  | .awaitCreate => saveResume (runOps p.1 env.create.during) messageData p.2 env.create.result
  | .awaitAppend _ => saveResume (runOps p.1 env.append.during) messageData p.2 env.append.result
  | .awaitUpdate _ _ => saveResume (runOps p.1 env.update.during) messageData p.2 env.update.result

/-- The value a finished call returned. -/
def SavePoint.value : SavePoint → Option String
  | .returned messageId => messageId
  | _ => none

/-- Lines 355-390, run to its return: the call has at most three `await`s. -/
def saveMessageToFirestore (env : SaveEnv) (s : State) (messageData : MessageData) :
    State × Option String :=
  let p := saveAdvance env messageData
    (saveAdvance env messageData (saveAdvance env messageData (saveCall s messageData)))
  (p.1, p.2.value)

/-! ## `handleSendMessage` (lines 444-484) -/

/-- Lines 91-96. -/
def botPersonaInstructions : String :=
  "\nSYSTEM GUIDELINES (Enhanced):\n1. Maintain context. 2. For complex queries: provide key points with 🔑. 3. Verify facts.\n4. Use structured responses. 5. Use analogies. 6. Be conversational. 7. Self-correct.\n8. On 'who are you', 'your name', etc., respond only with \"I am ChatIQ bot made by ChatIQ AI.\"\n9. Adapt to user's language."

/-- The white space and line terminators that `String.prototype.trim` removes. -/
def isTrimSpace (c : Char) : Bool :=
  let n := c.toNat
  n = 9 || n = 10 || n = 11 || n = 12 || n = 13 || n = 32 || n = 0xA0 || n = 0x1680 ||
  (0x2000 ≤ n && n ≤ 0x200A) || n = 0x2028 || n = 0x2029 || n = 0x202F || n = 0x205F ||
  n = 0x3000 || n = 0xFEFF

/-- The method `trim()` of a string. -/
def trim (v : String) : String :=
  String.mk ((v.toList.dropWhile isTrimSpace).reverse.dropWhile isTrimSpace).reverse

/-- Lines 462-471: the `contents` list of the request, or `none` when the
window is empty and line 468 throws a `TypeError` on `undefined`. -/
def buildContents (shortTerm : List Entry) (textContent : String)
    (imageBase64 imageMimeType : Option String) : Option (List Content) :=
  let contents : List Content := shortTerm.map (fun msg =>
    { role := if msg.sender = "user" then "user" else "model", parts := [Part.text msg.content] })
  match contents.getLast? with
  | none => none
  | some lastContent =>
      let parts1 := lastContent.parts.set 0
        (Part.text (botPersonaInstructions ++ "\n\nUSER QUERY:\n" ++
          (if textContent != "" then textContent else "(Analyze the image)")))
      let parts2 :=
        if truthy imageBase64 && truthy imageMimeType then
          parts1 ++ [Part.inlineData (interpolate imageMimeType) (interpolate imageBase64)]
        else parts1
      some (contents.dropLast ++ [{ lastContent with parts := parts2 }])

/-- The surroundings of one `handleSendMessage` call: the awaited writes of
its three possible saves, the handlers that run during its other two
suspensions, and what `callGeminiAPI(payload)` settles to (`none`: the
awaited call rejects). -/
structure SendEnv where
  imageSave : SaveEnv
  textSave : SaveEnv
  /-- Handlers that run during the 200 ms pause of line 456. -/
  pause : List Op := []
  /-- Handlers that run while line 474 is awaited. -/
  completionDuring : List Op := []
  /-- What the awaited call of line 474 settles to, as the content line 476
  stores.  The script declares the name `callGeminiAPI` twice (lines 486 and
  664), so the function behind the call is left open here;
  `handleSendMessage.callee` is the one a script binds the name to. -/
  callGeminiAPI : List Content → Option String
  botSave : SaveEnv

/-- Lines 476 and 480: save the bot message with the given content. -/
def saveBotMessage (env : SendEnv) (s : State) (content : String) : State :=
  (saveMessageToFirestore env.botSave s { sender := "bot", type := "text", content := content }).1

/-- Lines 457-483: what `handleSendMessage` does after the pause of line
456, on the text and image it read at lines 445-447 (loading indicator and
speech are left out). -/
def handleSendMessage.respond (env : SendEnv) (s4 : State) (textContent : String)
    (imageBase64 imageMimeType : Option String) : State :=
  if s4.activeSessionId = some TEMP_NEW_SESSION then showError s4 "Could not start a new chat."
  else
    match buildContents s4.shortTerm textContent imageBase64 imageMimeType with
    | none => saveBotMessage env s4 "Sorry, an error occurred."
    | some contents =>
        let s5 := runOps { s4 with completions := s4.completions ++ [contents] }
          env.completionDuring
        match env.callGeminiAPI contents with
        | none => saveBotMessage env s5 "Sorry, an error occurred."
        | some botResponseText => saveBotMessage env s5 botResponseText

/-- Lines 444-484, run to its end. -/
def handleSendMessage (env : SendEnv) (s : State) : State :=
  let textContent := trim s.userInput
  let imageBase64 := s.currentBase64Image
  let imageMimeType := s.currentMimeType
  if textContent == "" && !truthy imageBase64 then s
  else
    let s1 := removeImagePreview { s with userInput := "" }
    let s2 :=
      if truthy imageBase64 then
        (saveMessageToFirestore env.imageSave s1
          { sender := "user", type := "image", content := interpolate imageBase64,
            mimeType := imageMimeType }).1
      else s1
    let s3 :=
      if textContent != "" then
        (saveMessageToFirestore env.textSave s2
          { sender := "user", type := "text", content := textContent }).1
      else s2
    let s4 := if s3.activeSessionId = some TEMP_NEW_SESSION then runOps s3 env.pause else s3
    handleSendMessage.respond env s4 textContent imageBase64 imageMimeType

/-! ## Interleaved `saveMessageToFirestore` calls -/

/-- A started call of `saveMessageToFirestore` and where it stands. -/
structure SaveTask where
  messageData : MessageData
  point : SavePoint
  deriving Repr

/-- The script with its started `saveMessageToFirestore` calls. -/
structure System where
  state : State
  tasks : List SaveTask := []
  deriving Repr

/-- What the event loop runs next. -/
inductive Event where
  /-- A synchronous handler. -/
  | handler (op : Op)
  /-- A new call `saveMessageToFirestore(messageData)` runs to its first `await`. -/
  | call (messageData : MessageData)
  /-- The pending write of call number `task` settles and the call resumes. -/
  | settle (task : Nat) (result : Option String)
  deriving Repr

/-- Run one event. -/
def System.step (sys : System) : Event → System
  | .handler op => { sys with state := op.run sys.state }
  | .call messageData =>
      let p := saveCall sys.state messageData
      { state := p.1, tasks := sys.tasks ++ [{ messageData := messageData, point := p.2 }] }
  | .settle task result =>
      match sys.tasks[task]? with
      | none => sys
      | some t =>
          let p := saveResume sys.state t.messageData t.point result
          { state := p.1, tasks := sys.tasks.set task { t with point := p.2 } }

/-- Run events one after another. -/
def System.run (sys : System) (events : List Event) : System :=
  events.foldl System.step sys

/-- The create-session writes of a write log. -/
def createWrites (writes : List Write) : List Write :=
  writes.filter (fun w => match w with
    | .createSession _ _ => true
    | _ => false)

/-- The append-message writes of a write log, as (session, message). -/
def appendedMessages (writes : List Write) : List (String × MessageData) :=
  writes.filterMap (fun w => match w with
    | .appendMessage _ session message => some (session, message)
    | _ => none)

/-- The update-activity writes of a write log, by session. -/
def activityUpdates (writes : List Write) : List String :=
  writes.filterMap (fun w => match w with
    | .updateActivity _ session => some session
    | _ => none)

/-- Run `saveMessageToFirestore` calls one after another: each call starts
when the previous one has returned. -/
def saveInTurn (s : State) (calls : List (SaveEnv × MessageData)) : State :=
  calls.foldl (fun acc c => (saveMessageToFirestore c.1 acc c.2).1) s

/-- No handler runs during the awaited writes of a save and every write
succeeds. -/
def SaveEnv.Undisturbed (env : SaveEnv) : Prop :=
  env.create.during = [] ∧ env.append.during = [] ∧ env.update.during = [] ∧
  env.create.result.isSome = true ∧ env.append.result.isSome = true ∧
  env.update.result.isSome = true

/-- The id the store gives to a session created under `env`. -/
def SaveEnv.createdId (env : SaveEnv) : String :=
  env.create.result.getD ""

/-! ## `callGeminiAPI` (lines 486-512) -/

/-- An exception thrown by the script, or the reason of a rejected promise. -/
inductive JsError where
  | typeError
  | rejected
  deriving DecidableEq, Repr

/-- The object `error` of an error body. -/
structure ErrorDetail where
  message : Option String := none
  deriving DecidableEq, Repr

/-- An element of `parts`. -/
structure PartJson where
  text : Option String := none
  deriving DecidableEq, Repr

/-- The object `content` of a candidate. -/
structure ContentJson where
  parts : Option (List PartJson) := none
  deriving DecidableEq, Repr

/-- An element of `candidates`. -/
structure CandidateJson where
  content : Option ContentJson := none
  deriving DecidableEq, Repr

/-- A response body that is a JSON object.  A field is `none` when it is
absent; a field that is present has the type the service documents. -/
structure Body where
  candidates : Option (List CandidateJson) := none
  error : Option ErrorDetail := none
  deriving DecidableEq, Repr

/-- What `resp.json()` settles to. -/
inductive JsonResult where
  /-- The promise rejects: the body is not JSON. -/
  | rejects
  /-- The body is the JSON value `null`. -/
  | null
  /-- The body is a JSON object. -/
  | object (body : Body)
  deriving DecidableEq, Repr

/-- The response `fetch` resolves to. -/
structure Response where
  ok : Bool
  json : JsonResult
  deriving DecidableEq, Repr

/-- The completion service as the script sees it: the configured url and
what `fetch` settles to for a payload (`none`: the promise rejects). -/
structure Service where
  geminiApiUrl : String
  fetch : List Content → Option Response

/-- The awaited value of `resp.json()`; member access on `null` is left to
the caller. -/
def awaitJson : JsonResult → Except JsError (Option Body)
  | .rejects => .error .rejected
  | .null => .ok none
  | .object body => .ok (some body)

/-- Line 499: `errorBody.error.message` inside the template literal. -/
def errorMessageText (errorBody : Option Body) : Except JsError String :=
  match errorBody with
  | none => .error .typeError
  | some body =>
      match body.error with
      | none => .error .typeError
      | some detail => .ok (match detail.message with
          | none => "undefined"
          | some m => m)

/-- Line 503: `data.candidates && data.candidates[0].content.parts[0].text`,
as the text when the expression is a non-empty string and `none` when it
is falsy.  An array is truthy also when it is empty. -/
def extractText (data : Option Body) : Except JsError (Option String) :=
  match data with
  | none => .error .typeError
  | some body =>
      match body.candidates with
      | none => .ok none
      | some [] => .error .typeError
      | some (candidate :: _) =>
          match candidate.content with
          | none => .error .typeError
          | some content =>
              match content.parts with
              | none => .error .typeError
              | some [] => .error .typeError
              | some (part :: _) =>
                  match part.text with
                  | none => .ok none
                  | some text => .ok (if text = "" then none else some text)

/-- Lines 491-507: the body of the `try` block. -/
def callGeminiAPI.attempt (svc : Service) (payload : List Content) : Except JsError String :=
  match svc.fetch payload with
  | none => .error .rejected
  | some resp =>
      if !resp.ok then
        -- line 497: a rejected `json()` is replaced by the default error body
        let errorBody : Option Body :=
          match awaitJson resp.json with
          | .error _ => some { error := some { message := some "Unknown API error." } }
          | .ok value => value
        match errorMessageText errorBody with
        | .error e => .error e
        | .ok text => .ok ("Error from AI service: " ++ text)
      else
        match awaitJson resp.json with
        | .error e => .error e
        | .ok data =>
            match extractText data with
            | .error e => .error e
            | .ok (some text) => .ok text
            | .ok none => .ok "Sorry, I received an empty response from the AI."

/-- Lines 486-512: the first definition of `callGeminiAPI`. -/
def callGeminiAPI (svc : Service) (payload : List Content) : Except JsError String :=
  if svc.geminiApiUrl = "" then
    .ok "AI service is not configured. Please check your config.js file."
  else
    match callGeminiAPI.attempt svc payload with
    | .ok text => .ok text
    | .error _ => .ok "Failed to connect to the AI service."

/-! ## Invariants of the listener registries -/

/-- Every live listener of a registry is its last one and the one the
handle variable refers to. -/
def Tracked (handle : Option Nat) (subs : List Subscription) : Prop :=
  ∀ (j : Nat) (x : Subscription), subs[j]? = some x → x.live = true →
    j + 1 = subs.length ∧ handle = some j

/-- No listener of a registry is live. -/
def AllDead (subs : List Subscription) : Prop :=
  ∀ (j : Nat) (x : Subscription), subs[j]? = some x → x.live = false

/-- Both registries are tracked by their handle variables. -/
def State.Inv (s : State) : Prop :=
  Tracked s.messagesUnsubscribe s.messageSubs ∧ Tracked s.sessionsUnsubscribe s.sessionSubs

/-! ## Long-term notes and feedback (lines 87-88 and 703-722) -/

/-- Line 87: `saveLongTerm`.  The session id is used as a property key, so
`null` is the key "null"; a later value replaces an earlier one. -/
def saveLongTerm (s : State) (sessionId : Option String) (key value : String) : State :=
  { s with longTerm := (interpolate sessionId, key, value) ::
      s.longTerm.filter (fun n => !(n.1 == interpolate sessionId && n.2.1 == key)) }

/-- Line 88: `getLongTerm`: the stored value, or `null` when there is none
or when the stored value is falsy (the empty string). -/
def getLongTerm (s : State) (sessionId : Option String) (key : String) : Option String :=
  match s.longTerm.find? (fun n => n.1 == interpolate sessionId && n.2.1 == key) with
  | none => none
  | some n => if n.2.2 = "" then none else some n.2.2

/-- Lines 703-722, run to its end.  `write` is the awaited feedback write:
the handlers that run while it is pending and what it settles to. -/
def recordFeedback (write : Await) (s : State) (messageId feedbackType content : String) :
    State :=
  if !truthy s.currentUserId then s
  else
    let s1 := { s with writes := s.writes ++
      [Write.appendFeedback (interpolate s.currentUserId) s.activeSessionId messageId
        feedbackType content] }
    let s2 := runOps s1 write.during
    match write.result with
    -- lines 719-721
    | none => s2
    -- lines 716-718
    | some _ =>
        if feedbackType = "inaccurate" then
          saveLongTerm s2 s2.activeSessionId ("correction-" ++ messageId) content
        else s2

/-! ## `loadUserSessionsAndData` (lines 248-264) -/

/-- Lines 249-252 and 261-263: the synchronous part.  The second component
is the stored id whose existence check (`getDoc`, line 253) is pending. -/
def loadUserSessionsAndData.start (s : State) : State × Option String :=
  let s1 := loadChatSessions s
  match s1.sessionStorage with
  | none => (startNewUnsavedChat s1, none)
  | some restoredSessionId =>
      if restoredSessionId != "" && restoredSessionId != TEMP_NEW_SESSION then
        (s1, some restoredSessionId)
      else (startNewUnsavedChat s1, none)

/-- Lines 253-260: the callback that runs when the existence check answers. -/
def loadUserSessionsAndData.answered (s : State) (restoredSessionId : String) (found : Bool) :
    State :=
  if found then selectSession s restoredSessionId
  else startNewUnsavedChat { s with sessionStorage := none }

/-- The existence check of line 253: the handlers that run while it is
pending, and its answer (`none`: `getDoc` rejects, for which the script
installs no handler). -/
structure ExistenceCheck where
  during : List Op := []
  answer : Option Bool
  deriving Repr

/-- Lines 248-264, run until the callback of the existence check, if any,
has returned. -/
def loadUserSessionsAndData (check : ExistenceCheck) (s : State) : State :=
  match loadUserSessionsAndData.start s with
  | (s1, none) => s1
  | (s1, some restoredSessionId) =>
      match check.answer with
      | none => runOps s1 check.during
      | some found =>
          loadUserSessionsAndData.answered (runOps s1 check.during) restoredSessionId found

/-! ## The verification pass (lines 622-672) -/

/-- The method `toLowerCase()` of a string.  An ASCII character is mapped
by `Char.toLower`; what the built-in does to a character outside ASCII is
the parameter `lowerOther`. -/
def toLowerCase (lowerOther : Char → List Char) (v : String) : String :=
  String.mk (v.toList.flatMap (fun c => if c.toNat < 128 then [c.toLower] else lowerOther c))

/-- The method `includes(kw)` of a string: `kw` occurs in it as a contiguous
run of characters. -/
def includes (v kw : String) : Bool :=
  v.toList.tails.any (fun t => kw.toList.isPrefixOf t)

/-- Lines 657-660. -/
def verifyKeywords : List String :=
  ["fact", "statistic", "number", "historical", "scientific",
   "medical", "technical", "figure", "data", "research"]

/-- Lines 656-662. -/
def requiresVerification (lowerOther : Char → List Char) (query : String) : Bool :=
  verifyKeywords.any (fun kw => includes (toLowerCase lowerOther query) kw)

/-- The other case of an ASCII letter; any other character is left as it is. -/
def flipCase (c : Char) : Char :=
  if c.isUpper then c.toLower else if c.isLower then c.toUpper else c

/-- A list of characters with the case of its ASCII letters changed at the
positions marked `true` (positions past the end of the marks are left as
they are). -/
def changeCaseList : List Char → List Bool → List Char
  | [], _ => []
  | c :: cs, [] => c :: cs
  | c :: cs, m :: ms => (if m then flipCase c else c) :: changeCaseList cs ms

/-- A string with the case of its ASCII letters changed at the marked positions. -/
def changeCase (v : String) (marks : List Bool) : String :=
  String.mk (changeCaseList v.toList marks)

/-- Lines 625 and 639: `r.candidates?.[0]?.content?.parts?.[0]?.text` on an
object `r`, as the text when it is a non-empty string and `none` when the
chain is `undefined` or falsy. -/
def textOf (r : Body) : Option String :=
  match r.candidates with
  | some (candidate :: _) =>
      match candidate.content with
      | some content =>
          match content.parts with
          | some (part :: _) =>
              match part.text with
              | some text => if text = "" then none else some text
              | none => none
          | _ => none
      | none => none
  | _ => none

/-- Lines 664-672: the second declaration of `callGeminiAPI`, which wraps
`contents` into a payload, awaits `fetch` and returns `response.json()`;
it has no `try`. -/
def Verify.callGeminiAPI (svc : Service) (contents : List Content) :
    Except JsError (Option Body) :=
  match svc.fetch contents with
  | none => .error .rejected
  | some resp => awaitJson resp.json

/-- What line 474 of `handleSendMessage` awaits when the script runs: of two
function declarations of one name in a script the later one is the binding
of the name, so `callGeminiAPI(payload)` calls lines 664-672.  The call
rejects when `fetch` or `json()` rejects and otherwise gives the parsed
body, whatever `resp.ok` is; line 476 stores that value, not a string, as
the content, and `render` is how the stored value reads as a string. -/
def handleSendMessage.callee (svc : Service) (render : Option Body → String)
    (payload : List Content) : Option String :=
  match Verify.callGeminiAPI svc payload with
  | .error _ => none
  | .ok body => some (render body)

/-- Lines 630-634. -/
def verificationPrompt (userQuery responseText : String) : String :=
  "\n            Please verify the following statement for accuracy and completeness based on your knowledge. If it is inaccurate, provide a corrected and improved response. If it is accurate, just repeat the original response.\n            USER QUERY: " ++
    userQuery ++ "\n            RESPONSE: " ++ responseText ++ "\n            "

/-- What a call of `verifyAndEnhanceResponse` did: the completion calls it
issued and what it returned (`error`: it threw). -/
structure VerifyOutcome where
  calls : List (List Content)
  result : Except JsError String
  deriving Repr

/-- Lines 622-645.  `call` is what the awaited `callGeminiAPI(...)` of line
635 settles to; `apiResponse` is `none` for `null`. -/
def verifyAndEnhanceResponse (lowerOther : Char → List Char)
    (call : List Content → Except JsError (Option Body))
    (apiResponse : Option Body) (userQuery : String) : VerifyOutcome :=
  match apiResponse with
  | none => { calls := [], result := .error .typeError }
  | some first =>
      match textOf first with
      | none => { calls := [], result := .ok "Sorry, I couldn't process that." }
      | some responseText =>
          if requiresVerification lowerOther userQuery then
            let contents : List Content :=
              [{ role := "user", parts := [Part.text (verificationPrompt userQuery responseText)] }]
            match call contents with
            | .error e => { calls := [contents], result := .error e }
            | .ok none => { calls := [contents], result := .error .typeError }
            | .ok (some verifiedResponse) =>
                match textOf verifiedResponse with
                | some verified => { calls := [contents], result := .ok verified }
                | none => { calls := [contents], result := .ok responseText }
          else { calls := [], result := .ok responseText }

/-! # Theorems -/

/-! ## The conversation window (C4, C5) -/

/-- The window after `addMessage`: the pushed list, without its head when
it is longer than 20. -/
theorem addMessage_shortTerm (s : State) (a b : String) :
    (addMessage s a b).shortTerm =
      if (s.shortTerm ++ [({ sender := a, content := b } : Entry)]).length > 20 then
        (s.shortTerm ++ [({ sender := a, content := b } : Entry)]).tail
      else s.shortTerm ++ [({ sender := a, content := b } : Entry)] := rfl

/-- A window of at most 20 entries still has at most 20 after `addMessage`. -/
theorem addMessage_length_le (s : State) (a b : String) (h : s.shortTerm.length ≤ 20) :
    (addMessage s a b).shortTerm.length ≤ 20 := by
  rw [addMessage_shortTerm]
  split
  · simp only [List.length_tail, List.length_append, List.length_singleton]; omega
  · rename_i h'; simp only [List.length_append, List.length_singleton] at h' ⊢; omega

/-- One call keeps the bound. -/
theorem MemoryCall.run_length_le (c : MemoryCall) (s : State) (h : s.shortTerm.length ≤ 20) :
    (c.run s).shortTerm.length ≤ 20 := by
  cases c with
  | addMessage a b => exact addMessage_length_le s a b h
  | clearShortTerm => simp [MemoryCall.run, ChatIQ.clearShortTerm]

/-- A sequence of calls keeps the bound. -/
theorem runMemoryCalls_length_le (calls : List MemoryCall) :
    ∀ s : State, s.shortTerm.length ≤ 20 → (runMemoryCalls s calls).shortTerm.length ≤ 20 := by
  induction calls with
  | nil => intro s h; exact h
  | cons c cs ih => intro s h; exact ih _ (MemoryCall.run_length_le c s h)

/-- C4: starting from the empty `shortTerm`, after every call of every finite
sequence of `addMessage` and `clearShortTerm` calls (after the first `k`
calls, for every `k`), `shortTerm` holds at most 20 entries. -/
theorem shortTerm_at_most_20 (s : State) (calls : List MemoryCall) (k : Nat) :
    (runMemoryCalls { s with shortTerm := [] } (calls.take k)).shortTerm.length ≤ 20 :=
  runMemoryCalls_length_le _ _ (by simp)

/-- On a window of at most 20 entries `addMessage` keeps the last 20 of the
pushed list. -/
theorem addMessage_eq_drop (s : State) (a b : String) (h : s.shortTerm.length ≤ 20) :
    (addMessage s a b).shortTerm = (s.shortTerm ++ [({ sender := a, content := b } : Entry)]).drop
      ((s.shortTerm ++ [({ sender := a, content := b } : Entry)]).length - 20) := by
  rw [addMessage_shortTerm]
  split
  · rename_i h'
    simp only [List.length_append, List.length_singleton] at h' ⊢
    have : s.shortTerm.length + 1 - 20 = 1 := by omega
    rw [this]; simp
  · rename_i h'
    simp only [List.length_append, List.length_singleton] at h' ⊢
    have : s.shortTerm.length + 1 - 20 = 0 := by omega
    rw [this]; simp

/-- Keeping the last `k` entries before appending does not change the last
`k` entries of the whole. -/
theorem drop_last_append (a b : List Entry) (k : Nat) :
    (a.drop (a.length - k) ++ b).drop ((a.drop (a.length - k) ++ b).length - k)
      = (a ++ b).drop ((a ++ b).length - k) := by
  by_cases h : a.length ≤ k
  · have : a.length - k = 0 := by omega
    simp [this]
  · have h1 : (a.drop (a.length - k) ++ b).length - k = b.length := by
      simp only [List.length_append, List.length_drop]; omega
    have h2 : (a ++ b).length - k = (a.length - k) + b.length := by
      simp only [List.length_append]; omega
    have h3 : (a ++ b).drop (a.length - k) = a.drop (a.length - k) ++ b :=
      List.drop_append_of_le_length (by omega)
    rw [h1, h2, ← h3, List.drop_drop, Nat.add_comm]

/-- The loop of lines 403-409 leaves the last 20 entries of the window
followed by the entries of the snapshot. -/
theorem foldl_addMessage (snapshot : List MessageData) :
    ∀ s : State, s.shortTerm.length ≤ 20 →
      (snapshot.foldl (fun acc msg => addMessage acc msg.sender
          (if msg.type = "image" then "[Image]" else msg.content)) s).shortTerm
        = (s.shortTerm ++ snapshot.map windowEntry).drop
            ((s.shortTerm ++ snapshot.map windowEntry).length - 20) := by
  induction snapshot with
  | nil =>
    intro s h
    have : s.shortTerm.length - 20 = 0 := by omega
    simp [this]
  | cons m ms ih =>
    intro s h
    rw [List.foldl_cons, ih _ (addMessage_length_le s _ _ h), addMessage_eq_drop _ _ _ h,
      drop_last_append]
    simp [windowEntry]

/-- C5: when the chat elements exist (the guard of line 400), a snapshot of n
messages delivered to the callback of `loadChatHistory` leaves in `shortTerm`,
whatever it held before, exactly the last min(n, 20) messages of the snapshot
in snapshot order, each as sender and content, the content of an image
message being the literal [Image]. -/
theorem snapshot_replaces_window (s : State) (snapshot : List MessageData)
    (hBox : s.chatBox = true) (hWrapper : s.chatBoxWrapper = true) :
    (onMessagesSnapshot s snapshot).shortTerm
      = (snapshot.drop (snapshot.length - min snapshot.length 20)).map windowEntry := by
  unfold onMessagesSnapshot
  simp only [hBox, hWrapper, Bool.not_true, Bool.or_self, Bool.false_eq_true, if_false]
  rw [foldl_addMessage _ _ (by simp [clearShortTerm])]
  simp only [clearShortTerm, List.nil_append, List.length_map, List.map_drop]
  congr 1
  omega

/-- C5, a witness of `snapshot_replaces_window`: 21 messages, the second an
image, delivered over a window that held an older entry. -/
theorem snapshot_replaces_window_witness :
    (onMessagesSnapshot { shortTerm := [{ sender := "bot", content := "old" }] }
        ({ sender := "user", type := "text", content := "first" } ::
          { sender := "user", type := "image", content := "AAAA" } ::
          List.replicate 19 { sender := "bot", type := "text", content := "x" })).shortTerm
      = { sender := "user", content := "[Image]" } ::
          List.replicate 19 { sender := "bot", content := "x" } := by
  rw [snapshot_replaces_window _ _ rfl rfl]
  decide

/-! ## The listener registries (C1, C2) -/

/-- Invoking a handle changes the listener at that position only. -/
theorem cancelAt_getElem? (l : List Subscription) :
    ∀ i j, (cancelAt i l)[j]?
      = (l[j]?).map (fun x => if j = i then { x with live := false } else x) := by
  induction l with
  | nil => intro i j; simp [cancelAt]
  | cons a t ih =>
    intro i j
    cases i with
    | zero =>
      cases j with
      | zero => simp [cancelAt]
      | succ j => simp [cancelAt]
    | succ i =>
      cases j with
      | zero => simp [cancelAt]
      | succ j => simp [cancelAt, ih]

/-- Invoking a handle keeps the size of the registry. -/
theorem cancelAt_length (l : List Subscription) : ∀ i, (cancelAt i l).length = l.length := by
  induction l with
  | nil => intro i; simp [cancelAt]
  | cons a t ih => intro i; cases i <;> simp [cancelAt, ih]

/-- The statement `if (handle) handle();` keeps the size of the registry. -/
theorem invokeHandle_length (h : Option Nat) (l : List Subscription) :
    (invokeHandle h l).length = l.length := by
  cases h <;> simp [invokeHandle, cancelAt_length]

/-- In a tracked registry, invoking the handle variable leaves no live listener. -/
theorem Tracked.allDead_invoke {h : Option Nat} {l : List Subscription} (ht : Tracked h l) :
    AllDead (invokeHandle h l) := by
  intro j x hx
  cases h with
  | none =>
    simp only [invokeHandle] at hx
    cases hl : x.live with
    | false => rfl
    | true => exact absurd (ht j x hx hl).2 (by simp)
  | some i =>
    simp only [invokeHandle, cancelAt_getElem?, Option.map_eq_some'] at hx
    obtain ⟨y, hy, rfl⟩ := hx
    by_cases hji : j = i
    · simp [hji]
    · simp only [hji, if_false]
      cases hl : y.live with
      | false => rfl
      | true =>
        have := (ht j y hy hl).2
        simp at this
        exact absurd this.symm hji

/-- A registry without live listeners is tracked by any handle. -/
theorem AllDead.tracked {l : List Subscription} (hd : AllDead l) (h : Option Nat) : Tracked h l := by
  intro j x hx hl
  rw [hd j x hx] at hl
  exact absurd hl (by simp)

/-- Invoking a handle on a registry without live listeners leaves none live. -/
theorem AllDead.invoke {l : List Subscription} (hd : AllDead l) (h : Option Nat) :
    AllDead (invokeHandle h l) :=
  (hd.tracked h).allDead_invoke

/-- Opening a listener on a registry without live ones, and storing its handle,
gives a tracked registry. -/
theorem AllDead.tracked_open {l : List Subscription} (hd : AllDead l) (x : Subscription) :
    Tracked (some l.length) (l ++ [x]) := by
  intro j y hy hl
  rcases Nat.lt_trichotomy j l.length with hlt | heq | hgt
  · rw [List.getElem?_append_left hlt] at hy
    rw [hd j y hy] at hl
    exact absurd hl (by simp)
  · subst heq; simp
  · rw [List.getElem?_eq_none (by simp; omega)] at hy
    exact absurd hy (by simp)

/-- In a tracked registry every listener but the last opened is not live. -/
theorem Tracked.dropLast_dead {h : Option Nat} {l : List Subscription} (ht : Tracked h l) :
    ∀ x ∈ l.dropLast, x.live = false := by
  intro x hx
  obtain ⟨j, hj⟩ := List.getElem?_of_mem hx
  have hlt : j < l.dropLast.length := by
    by_contra hge
    rw [List.getElem?_eq_none (by omega)] at hj
    exact absurd hj (by simp)
  have hj' : l[j]? = some x := by
    rw [List.dropLast_eq_take] at hj hlt
    rw [List.getElem?_take_of_lt (by simpa using hlt)] at hj
    exact hj
  cases hl : x.live with
  | false => rfl
  | true =>
    have := (ht j x hj' hl).1
    simp only [List.length_dropLast] at hlt
    omega

/-- A tracked registry has at most one live listener. -/
theorem Tracked.live_le_one {h : Option Nat} {l : List Subscription} (ht : Tracked h l) :
    (liveSubs l).length ≤ 1 := by
  rcases List.eq_nil_or_concat l with rfl | ⟨t, a, rfl⟩
  · simp [liveSubs]
  · have hd := ht.dropLast_dead
    simp only [List.concat_eq_append, List.dropLast_concat] at hd
    have : t.filter (fun x => x.live) = [] := by
      rw [List.filter_eq_nil_iff]
      intro x hx
      simp [hd x hx]
    simp only [liveSubs, List.concat_eq_append, List.filter_append, this, List.nil_append]
    exact List.length_filter_le _ _


/-- `loadChatHistory` keeps the registries tracked. -/
theorem loadChatHistory_inv (s : State) (id : String) (h : s.Inv) : (loadChatHistory s id).Inv := by
  unfold loadChatHistory
  split
  · exact h
  · refine ⟨?_, h.2⟩
    have := (h.1.allDead_invoke).tracked_open { target := id, live := true }
    simpa using this

/-- `loadChatSessions` keeps the registries tracked. -/
theorem loadChatSessions_inv (s : State) (h : s.Inv) : (loadChatSessions s).Inv := by
  unfold loadChatSessions
  split
  · exact h
  · refine ⟨h.1, ?_⟩
    have := (h.2.allDead_invoke).tracked_open { target := interpolate s.currentUserId, live := true }
    simpa using this

/-- `selectSession` keeps the registries tracked. -/
theorem selectSession_inv (s : State) (id : String) (h : s.Inv) : (selectSession s id).Inv := by
  unfold selectSession
  split
  · exact h
  · apply loadChatHistory_inv
    exact ⟨(h.1.allDead_invoke).tracked _, h.2⟩

/-- `startNewUnsavedChat` keeps the registries tracked. -/
theorem startNewUnsavedChat_inv (s : State) (h : s.Inv) : (startNewUnsavedChat s).Inv := h

/-- `updateUIToLoggedOutState` keeps the registries tracked. -/
theorem updateUIToLoggedOutState_inv (s : State) (h : s.Inv) :
    (updateUIToLoggedOutState s).Inv :=
  ⟨(h.1.allDead_invoke).tracked _, (h.2.allDead_invoke).tracked _⟩

/-- The loop of lines 403-409 touches no registry. -/
theorem foldl_addMessage_subs (snapshot : List MessageData) : ∀ s : State,
    (snapshot.foldl (fun acc msg => addMessage acc msg.sender
        (if msg.type = "image" then "[Image]" else msg.content)) s).Inv ↔ s.Inv := by
  induction snapshot with
  | nil => intro s; rfl
  | cons m ms ih => intro s; rw [List.foldl_cons, ih]; rfl

/-- A snapshot delivery keeps the registries tracked. -/
theorem onMessagesSnapshot_inv (s : State) (snapshot : List MessageData) (h : s.Inv) :
    (onMessagesSnapshot s snapshot).Inv := by
  unfold onMessagesSnapshot
  split
  · exact h
  · rw [foldl_addMessage_subs]; exact h

/-- Every handler keeps the registries tracked. -/
theorem Op.run_inv (op : Op) (s : State) (h : s.Inv) : (op.run s).Inv := by
  cases op with
  | selectSession id => exact selectSession_inv s id h
  | startNewUnsavedChat => exact startNewUnsavedChat_inv s h
  | updateUIToLoggedOutState => exact updateUIToLoggedOutState_inv s h
  | loadChatSessions => exact loadChatSessions_inv s h
  | loadChatHistory id => exact loadChatHistory_inv s id h
  | messagesSnapshot handle snapshot =>
    simp only [Op.run]
    split
    · exact onMessagesSnapshot_inv s snapshot h
    · exact h

/-- The first segment of a save keeps the registries tracked. -/
theorem saveCall_inv (s : State) (m : MessageData) (h : s.Inv) : (saveCall s m).1.Inv := by
  unfold saveCall
  split
  · exact h
  · split
    · exact h
    · exact h

/-- Every later segment of a save keeps the registries tracked. -/
theorem saveResume_inv (s : State) (m : MessageData) (p : SavePoint) (r : Option String)
    (h : s.Inv) : (saveResume s m p r).1.Inv := by
  unfold saveResume
  split
  · exact h
  · exact loadChatHistory_inv _ _ h
  · exact h
  · exact h
  · exact h
  · exact h

/-- Every event keeps the registries tracked. -/
theorem System.step_inv (sys : System) (e : Event) (h : sys.state.Inv) : (sys.step e).state.Inv := by
  cases e with
  | handler op => exact Op.run_inv op _ h
  | call m => exact saveCall_inv _ m h
  | settle task result =>
    simp only [System.step]
    split
    · exact h
    · exact saveResume_inv _ _ _ _ h

/-- Every sequence of events keeps the registries tracked. -/
theorem System.events_inv (events : List Event) :
    ∀ sys : System, sys.state.Inv → (sys.run events).state.Inv := by
  induction events with
  | nil => intro sys h; exact h
  | cons e es ih => intro sys h; exact ih _ (System.step_inv sys e h)

/-- C2: starting with no listener, after every prefix of every sequence of
handlers (`loadChatSessions`, `loadChatHistory`, `selectSession`,
`startNewUnsavedChat`, `updateUIToLoggedOutState`, snapshot deliveries) and of
started and resumed `saveMessageToFirestore` calls (session creation included),
at most one message-list listener and at most one session-list listener is
live, and every listener of a kind other than the last opened of that kind
has been cancelled: an open cancels the previously opened one in its own step. -/
theorem at_most_one_live_subscription (s0 : State) (tasks : List SaveTask) (events : List Event)
    (k : Nat) :
    let s := (System.run
      { state := { s0 with messagesUnsubscribe := none, sessionsUnsubscribe := none,
                           messageSubs := [], sessionSubs := [] },
        tasks := tasks } (events.take k)).state
    ((liveSubs s.messageSubs).length ≤ 1 ∧ (liveSubs s.sessionSubs).length ≤ 1) ∧
    ((∀ x ∈ s.messageSubs.dropLast, x.live = false) ∧
      (∀ x ∈ s.sessionSubs.dropLast, x.live = false)) := by
  intro s
  have h : s.Inv := System.events_inv _ _ ⟨by intro j x hx; simp at hx, by intro j x hx; simp at hx⟩
  exact ⟨⟨h.1.live_le_one, h.2.live_le_one⟩, h.1.dropLast_dead, h.2.dropLast_dead⟩

/-- C1: the code at the failing input.  A signed-in user selects session A and
then starts a new chat: `startNewUnsavedChat` sets `activeSessionId` to the
sentinel and does not invoke `messagesUnsubscribe`, so the listener bound to A
is still live while A is not the active session, and a snapshot of A that
arrives afterwards fills the window of the new chat. -/
theorem startNewUnsavedChat_leaves_listener_live :
    (runOps { currentUserId := some "u" }
        [Op.startNewUnsavedChat, Op.selectSession "A", Op.startNewUnsavedChat]).activeSessionId
      = some TEMP_NEW_SESSION ∧
    liveSubs (runOps { currentUserId := some "u" }
        [Op.startNewUnsavedChat, Op.selectSession "A", Op.startNewUnsavedChat]).messageSubs
      = [{ target := "A", live := true }] ∧
    (runOps { currentUserId := some "u" }
        [Op.startNewUnsavedChat, Op.selectSession "A", Op.startNewUnsavedChat,
         Op.messagesSnapshot 0 [{ sender := "bot", type := "text", content := "from A" }]]).shortTerm
      = [{ sender := "bot", content := "from A" }] := by
  decide

/-! ## `saveMessageToFirestore` (C3) -/

/-- The title of a session: a short message is its own title; a message of
more than 35 code units is cut after the 35th and followed by "..."; a
character outside the basic plane counts as two code units. -/
theorem sessionTitle_examples :
    sessionTitle "Hello" = "Hello" ∧
    sessionTitle "abcdefghijklmnopqrstuvwxyz0123456789" =
      "abcdefghijklmnopqrstuvwxyz012345678..." ∧
    sessionTitle "abcdefghijklmnopqrstuvwxyz012345678" =
      "abcdefghijklmnopqrstuvwxyz012345678" ∧
    jsLength "a😀" = 3 ∧
    sessionTitle "abcdefghijklmnopqrstuvwxyz0123456😀" =
      "abcdefghijklmnopqrstuvwxyz0123456😀" ∧
    sessionTitle "abcdefghijklmnopqrstuvwxyz01234567😀" =
      "abcdefghijklmnopqrstuvwxyz01234567\uFFFD..." := by
  decide

/-- `loadChatHistory` touches only the message-list registry and its handle. -/
theorem loadChatHistory_frame (s : State) (id : String) :
    (loadChatHistory s id).writes = s.writes ∧
    (loadChatHistory s id).currentUserId = s.currentUserId ∧
    (loadChatHistory s id).activeSessionId = s.activeSessionId ∧
    (loadChatHistory s id).shortTerm = s.shortTerm ∧
    (loadChatHistory s id).completions = s.completions ∧
    (loadChatHistory s id).errors = s.errors := by
  unfold loadChatHistory
  split <;> simp [interpolate]

/-- An undisturbed save into a stored session issues the append and the
activity update on the active session, and changes nothing else. -/
theorem save_undisturbed_active (env : SaveEnv) (s : State) (m : MessageData)
    (hu : truthy s.currentUserId = true) (ha : s.activeSessionId ≠ some TEMP_NEW_SESSION)
    (he : env.Undisturbed) :
    (saveMessageToFirestore env s m).1 = { s with writes := s.writes ++
      [.appendMessage (interpolate s.currentUserId) (interpolate s.activeSessionId) m,
       .updateActivity (interpolate s.currentUserId) (interpolate s.activeSessionId)] } := by
  obtain ⟨_, h2, h3, _, h5, h6⟩ := he
  obtain ⟨d, hd⟩ := Option.isSome_iff_exists.mp h5
  obtain ⟨d', hd'⟩ := Option.isSome_iff_exists.mp h6
  simp [saveMessageToFirestore, saveCall, hu, ha, issueAppend, saveAdvance, saveResume, h2, h3,
    hd, hd', runOps, SavePoint.value]

/-- An undisturbed save from the unsaved state issues the create-session
write, makes the created session active and opens its listener, then
issues the append and the activity update on the created session. -/
theorem save_undisturbed_temp (env : SaveEnv) (s : State) (m : MessageData)
    (hu : truthy s.currentUserId = true) (ha : s.activeSessionId = some TEMP_NEW_SESSION)
    (he : env.Undisturbed) :
    (saveMessageToFirestore env s m).1 =
      { loadChatHistory { s with activeSessionId := some env.createdId,
                                 sessionStorage := some env.createdId } env.createdId with
        writes := s.writes ++
          [.createSession (interpolate s.currentUserId) (sessionTitle m.content),
           .appendMessage (interpolate s.currentUserId) env.createdId m,
           .updateActivity (interpolate s.currentUserId) env.createdId] } := by
  obtain ⟨h1, h2, h3, h4, h5, h6⟩ := he
  obtain ⟨c, hc⟩ := Option.isSome_iff_exists.mp h4
  obtain ⟨d, hd⟩ := Option.isSome_iff_exists.mp h5
  obtain ⟨d', hd'⟩ := Option.isSome_iff_exists.mp h6
  simp only [saveMessageToFirestore, saveCall, hu, ha, issueAppend, saveAdvance, saveResume, h1, h2,
    h3, hc, hd, hd', runOps, SavePoint.value, SaveEnv.createdId, loadChatHistory, Bool.not_true,
    Bool.false_eq_true, if_false, if_true, List.foldl_nil, Bool.false_or, Option.getD_some]
  split <;> simp [interpolate]

/-- `loadChatHistory` issues no write. -/
theorem loadChatHistory_writes (s : State) (id : String) :
    (loadChatHistory s id).writes = s.writes := (loadChatHistory_frame s id).1

/-- `loadChatHistory` keeps the user. -/
theorem loadChatHistory_currentUserId (s : State) (id : String) :
    (loadChatHistory s id).currentUserId = s.currentUserId := (loadChatHistory_frame s id).2.1

/-- `loadChatHistory` keeps the active session. -/
theorem loadChatHistory_activeSessionId (s : State) (id : String) :
    (loadChatHistory s id).activeSessionId = s.activeSessionId := (loadChatHistory_frame s id).2.2.1

/-- `loadChatHistory` keeps the window (its callback runs later). -/
theorem loadChatHistory_shortTerm (s : State) (id : String) :
    (loadChatHistory s id).shortTerm = s.shortTerm := (loadChatHistory_frame s id).2.2.2.1

/-- `loadChatHistory` calls no completion. -/
theorem loadChatHistory_completions (s : State) (id : String) :
    (loadChatHistory s id).completions = s.completions := (loadChatHistory_frame s id).2.2.2.2.1

/-- The writes of a session's later saves, in order. -/
theorem saveInTurn_active (calls : List (SaveEnv × MessageData)) :
    ∀ s : State, truthy s.currentUserId = true → s.activeSessionId ≠ some TEMP_NEW_SESSION →
      (∀ c ∈ calls, c.1.Undisturbed) →
      (saveInTurn s calls).writes = s.writes ++ calls.flatMap (fun c =>
          [Write.appendMessage (interpolate s.currentUserId) (interpolate s.activeSessionId) c.2,
           Write.updateActivity (interpolate s.currentUserId) (interpolate s.activeSessionId)]) := by
  induction calls with
  | nil => intro s _ _ _; simp [saveInTurn]
  | cons c cs ih =>
    intro s hu ha he
    have hc := save_undisturbed_active c.1 s c.2 hu ha (he c (List.mem_cons_self _ _))
    have := ih (saveMessageToFirestore c.1 s c.2).1 (by rw [hc]; exact hu) (by rw [hc]; exact ha)
      (fun c' hc' => he c' (List.mem_cons_of_mem _ hc'))
    simp only [saveInTurn, List.foldl_cons] at this ⊢
    rw [this, hc]
    simp

/-- Appends and activity updates hold no create-session write. -/
theorem createWrites_later (u id : String) (calls : List (SaveEnv × MessageData)) :
    createWrites (calls.flatMap (fun c =>
      [Write.appendMessage u id c.2, Write.updateActivity u id])) = [] := by
  induction calls with
  | nil => rfl
  | cons c cs ih => simpa [createWrites] using ih

/-- The messages appended by the later saves, in order. -/
theorem appendedMessages_later (u id : String) (calls : List (SaveEnv × MessageData)) :
    appendedMessages (calls.flatMap (fun c =>
      [Write.appendMessage u id c.2, Write.updateActivity u id])) = calls.map (fun c => (id, c.2)) := by
  induction calls with
  | nil => rfl
  | cons c cs ih => simpa [appendedMessages] using ih

/-- C3, amended: for k >= 1 `saveMessageToFirestore` calls that run one after
another from the unsaved state (each starts when the previous one has
returned), by a signed-in user, with every write succeeding, no handler
interleaved and a created id other than the sentinel, exactly one
create-session write is issued, by the first call, and all k messages are
appended, in call order, to the session it created; and any call that starts
in that state, where the sentinel is still active, runs up to its first await
by issuing a create-session write of its own and leaving the sentinel active. -/
theorem one_session_for_saves_in_turn (s : State) (first : SaveEnv × MessageData)
    (later : List (SaveEnv × MessageData))
    (hUser : truthy s.currentUserId = true)
    (hActive : s.activeSessionId = some TEMP_NEW_SESSION)
    (hEnv : ∀ c ∈ first :: later, c.1.Undisturbed)
    (hId : first.1.createdId ≠ TEMP_NEW_SESSION) :
    (∃ issued : List Write,
      (saveInTurn s (first :: later)).writes = s.writes ++ issued ∧
      createWrites issued
        = [Write.createSession (interpolate s.currentUserId) (sessionTitle first.2.content)] ∧
      appendedMessages issued = (first :: later).map (fun c => (first.1.createdId, c.2))) ∧
    (∀ other : MessageData,
      (saveCall s other).1.writes = s.writes ++
        [Write.createSession (interpolate s.currentUserId) (sessionTitle other.content)] ∧
      (saveCall s other).1.activeSessionId = some TEMP_NEW_SESSION) := by
  refine ⟨?_, fun other => by simp [saveCall, hUser, hActive]⟩
  have h1 := save_undisturbed_temp first.1 s first.2 hUser hActive (hEnv first (List.mem_cons_self _ _))
  have h2 := saveInTurn_active later (saveMessageToFirestore first.1 s first.2).1
    (by rw [h1]; simpa [loadChatHistory_currentUserId] using hUser)
    (by rw [h1]; simpa [loadChatHistory_activeSessionId] using hId)
    (fun c hc => hEnv c (List.mem_cons_of_mem _ hc))
  refine ⟨[Write.createSession (interpolate s.currentUserId) (sessionTitle first.2.content),
      Write.appendMessage (interpolate s.currentUserId) first.1.createdId first.2,
      Write.updateActivity (interpolate s.currentUserId) first.1.createdId] ++
      later.flatMap (fun c =>
        [Write.appendMessage (interpolate s.currentUserId) first.1.createdId c.2,
         Write.updateActivity (interpolate s.currentUserId) first.1.createdId]), ?_, ?_, ?_⟩
  · simp only [saveInTurn, List.foldl_cons] at h2 ⊢
    rw [h2, h1]
    simp [loadChatHistory_currentUserId, loadChatHistory_activeSessionId, interpolate]
  · rw [createWrites, List.filter_append, ← createWrites, ← createWrites, createWrites_later]
    simp [createWrites]
  · rw [appendedMessages, List.filterMap_append, ← appendedMessages, ← appendedMessages,
      appendedMessages_later]
    simp [appendedMessages]


/-- C3, a witness of `one_session_for_saves_in_turn`: three saves in turn. -/
theorem one_session_for_saves_in_turn_witness :
    ∃ issued : List Write,
      (saveInTurn { currentUserId := some "u", activeSessionId := some TEMP_NEW_SESSION }
        [(⟨⟨[], some "S1"⟩, ⟨[], some "m1"⟩, ⟨[], some ""⟩⟩,
            { sender := "user", type := "text", content := "a" }),
         (⟨⟨[], some "S2"⟩, ⟨[], some "m2"⟩, ⟨[], some ""⟩⟩,
            { sender := "user", type := "text", content := "b" }),
         (⟨⟨[], some "S3"⟩, ⟨[], some "m3"⟩, ⟨[], some ""⟩⟩,
            { sender := "bot", type := "text", content := "c" })]).writes = [] ++ issued ∧
      createWrites issued = [Write.createSession "u" (sessionTitle "a")] ∧
      appendedMessages issued =
        [("S1", { sender := "user", type := "text", content := "a" }),
         ("S1", { sender := "user", type := "text", content := "b" }),
         ("S1", { sender := "bot", type := "text", content := "c" })] :=
  (one_session_for_saves_in_turn
    { currentUserId := some "u", activeSessionId := some TEMP_NEW_SESSION }
    (⟨⟨[], some "S1"⟩, ⟨[], some "m1"⟩, ⟨[], some ""⟩⟩,
      { sender := "user", type := "text", content := "a" })
    [(⟨⟨[], some "S2"⟩, ⟨[], some "m2"⟩, ⟨[], some ""⟩⟩,
        { sender := "user", type := "text", content := "b" }),
     (⟨⟨[], some "S3"⟩, ⟨[], some "m3"⟩, ⟨[], some ""⟩⟩,
        { sender := "bot", type := "text", content := "c" })]
    (by decide) rfl
    (by
      intro c hc
      simp only [List.mem_cons, List.mem_singleton, List.not_mem_nil, or_false] at hc
      rcases hc with rfl | rfl | rfl <;> exact ⟨rfl, rfl, rfl, rfl, rfl, rfl⟩)
    (by decide)).1

set_option maxRecDepth 100000 in
/-- C3: a counterexample.  Two `saveMessageToFirestore` calls start while
`activeSessionId` is the sentinel, the second before the create-session
write of the first has completed: each call issues a create-session write,
and the two messages are appended to two different sessions. -/
theorem concurrent_first_sends_create_two_sessions :
    createWrites (System.run
        { state := { currentUserId := some "u", activeSessionId := some TEMP_NEW_SESSION } }
        [Event.call { sender := "user", type := "text", content := "a" },
         Event.call { sender := "user", type := "text", content := "b" },
         Event.settle 0 (some "S1"), Event.settle 1 (some "S2"),
         Event.settle 0 (some "m1"), Event.settle 1 (some "m2")]).state.writes
      = [Write.createSession "u" "a", Write.createSession "u" "b"] ∧
    appendedMessages (System.run
        { state := { currentUserId := some "u", activeSessionId := some TEMP_NEW_SESSION } }
        [Event.call { sender := "user", type := "text", content := "a" },
         Event.call { sender := "user", type := "text", content := "b" },
         Event.settle 0 (some "S1"), Event.settle 1 (some "S2"),
         Event.settle 0 (some "m1"), Event.settle 1 (some "m2")]).state.writes
      = [("S1", { sender := "user", type := "text", content := "a" }),
         ("S2", { sender := "user", type := "text", content := "b" })] := by
  decide

/-! ## `handleSendMessage` (C6, C7, C8) -/

/-- An undisturbed save of the bot message appends it to the session that is
active when the save starts. -/
theorem saveBotMessage_writes (env : SendEnv) (t : State) (content : String)
    (hu : truthy t.currentUserId = true) (ha : t.activeSessionId ≠ some TEMP_NEW_SESSION)
    (he : env.botSave.Undisturbed) :
    (saveBotMessage env t content).writes = t.writes ++
      [Write.appendMessage (interpolate t.currentUserId) (interpolate t.activeSessionId)
         { sender := "bot", type := "text", content := content },
       Write.updateActivity (interpolate t.currentUserId) (interpolate t.activeSessionId)] := by
  unfold saveBotMessage
  rw [save_undisturbed_active _ _ _ hu ha he]

/-- On a non-empty window lines 462-471 do not throw. -/
theorem buildContents_isSome (w : List Entry) (text : String) (img mime : Option String)
    (h : w ≠ []) : ∃ contents, buildContents w text img mime = some contents := by
  unfold buildContents
  rcases List.eq_nil_or_concat w with rfl | ⟨t, a, rfl⟩
  · exact absurd rfl h
  · simp

/-- `selectSession` issues no write, keeps the user and calls no completion. -/
theorem selectSession_frame (s : State) (id : String) :
    (selectSession s id).writes = s.writes ∧
    (selectSession s id).currentUserId = s.currentUserId ∧
    (selectSession s id).completions = s.completions := by
  unfold selectSession
  split
  · simp
  · simp [loadChatHistory_writes, loadChatHistory_currentUserId, loadChatHistory_completions]

/-- Selecting a session other than the active one makes it active. -/
theorem selectSession_activeSessionId (s : State) (id : String) (h : id ≠ "")
    (h' : s.activeSessionId ≠ some id) : (selectSession s id).activeSessionId = some id := by
  unfold selectSession
  simp [h, h', loadChatHistory_activeSessionId]

/-- The bot message of a send whose completion call is awaited undisturbed. -/
theorem respond_quiet (env : SendEnv) (t : State) (text : String) (img mime : Option String)
    (hu : truthy t.currentUserId = true) (ha : t.activeSessionId ≠ some TEMP_NEW_SESSION)
    (he : env.botSave.Undisturbed) (hq : env.completionDuring = []) :
    (handleSendMessage.respond env t text img mime).writes = t.writes ++
      [Write.appendMessage (interpolate t.currentUserId) (interpolate t.activeSessionId)
         { sender := "bot", type := "text",
           content := match buildContents t.shortTerm text img mime with
             | none => "Sorry, an error occurred."
             | some contents => (env.callGeminiAPI contents).getD "Sorry, an error occurred." },
       Write.updateActivity (interpolate t.currentUserId) (interpolate t.activeSessionId)] := by
  unfold handleSendMessage.respond
  simp only [ha, if_false, hq, runOps, List.foldl_nil]
  cases hb : buildContents t.shortTerm text img mime with
  | none => exact saveBotMessage_writes env _ _ hu ha he
  | some contents =>
    simp only []
    cases hc : env.callGeminiAPI contents with
    | none => exact saveBotMessage_writes env _ _ hu ha he
    | some reply => exact saveBotMessage_writes env _ _ hu ha he

/-- The bot message of a send during whose completion call another session is selected. -/
theorem respond_switched (env : SendEnv) (t : State) (text : String) (img mime : Option String)
    (b : String)
    (hu : truthy t.currentUserId = true) (ha : t.activeSessionId ≠ some TEMP_NEW_SESSION)
    (hb : b ≠ "" ∧ t.activeSessionId ≠ some b ∧ b ≠ TEMP_NEW_SESSION)
    (hw : t.shortTerm ≠ [])
    (he : env.botSave.Undisturbed) (hq : env.completionDuring = [Op.selectSession b]) :
    ∃ botContent : String,
    (handleSendMessage.respond env t text img mime).writes = t.writes ++
      [Write.appendMessage (interpolate t.currentUserId) b
         { sender := "bot", type := "text", content := botContent },
       Write.updateActivity (interpolate t.currentUserId) b] := by
  obtain ⟨contents, hc⟩ := buildContents_isSome t.shortTerm text img mime hw
  have key : ∀ content : String,
      (saveBotMessage env
        (selectSession { t with completions := t.completions ++ [contents] } b) content).writes
        = t.writes ++
      [Write.appendMessage (interpolate t.currentUserId) b
         { sender := "bot", type := "text", content := content },
       Write.updateActivity (interpolate t.currentUserId) b] := by
    intro content
    have hact := selectSession_activeSessionId
      { t with completions := t.completions ++ [contents] } b hb.1 hb.2.1
    rw [saveBotMessage_writes _ _ _ (by rw [(selectSession_frame _ _).2.1]; exact hu)
      (by rw [hact]; simpa using hb.2.2) he, hact, (selectSession_frame _ _).1,
      (selectSession_frame _ _).2.1]
    rfl
  unfold handleSendMessage.respond
  simp only [ha, if_false, hq, hc, runOps, List.foldl_nil, List.foldl_cons, Op.run]
  cases env.callGeminiAPI contents with
  | none => exact ⟨_, key _⟩
  | some reply => exact ⟨_, key _⟩

/-- A send of text without an image: one save, then the response. -/
theorem handleSendMessage_text (env : SendEnv) (s : State)
    (hText : trim s.userInput ≠ "") (hImage : truthy s.currentBase64Image = false) :
    handleSendMessage env s =
      handleSendMessage.respond env
        (if (saveMessageToFirestore env.textSave (removeImagePreview { s with userInput := "" })
              { sender := "user", type := "text", content := trim s.userInput }).1.activeSessionId
              = some TEMP_NEW_SESSION then
            runOps (saveMessageToFirestore env.textSave
              (removeImagePreview { s with userInput := "" })
              { sender := "user", type := "text", content := trim s.userInput }).1 env.pause
          else (saveMessageToFirestore env.textSave (removeImagePreview { s with userInput := "" })
              { sender := "user", type := "text", content := trim s.userInput }).1)
        (trim s.userInput) s.currentBase64Image s.currentMimeType := by
  unfold handleSendMessage
  simp only [hText, hImage, bne_iff_ne, ne_eq, not_false_eq_true, if_true, if_false, beq_iff_eq,
    Bool.false_eq_true, Bool.and_false, Bool.not_false, Bool.and_true]

/-- C6, amended: if `handleSendMessage` has persisted its user message to
session A and, while it awaits the completion call, `selectSession(B)` makes a
different session B active, then the bot reply of that send is appended to
the message collection of B, the session that is active when the completion
call returns, and not to that of A. -/
theorem bot_reply_goes_to_active_session (env : SendEnv) (s : State) (a b : String)
    (hUser : truthy s.currentUserId = true)
    (hA : s.activeSessionId = some a ∧ a ≠ TEMP_NEW_SESSION)
    (hB : b ≠ "" ∧ b ≠ a ∧ b ≠ TEMP_NEW_SESSION)
    (hText : trim s.userInput ≠ "")
    (hImage : truthy s.currentBase64Image = false)
    (hWindow : s.shortTerm ≠ [])
    (hSaves : env.textSave.Undisturbed ∧ env.botSave.Undisturbed)
    (hSwitch : env.completionDuring = [Op.selectSession b]) :
    ∃ botContent : String,
      (handleSendMessage env s).writes = s.writes ++
        [Write.appendMessage (interpolate s.currentUserId) a
           { sender := "user", type := "text", content := trim s.userInput },
         Write.updateActivity (interpolate s.currentUserId) a,
         Write.appendMessage (interpolate s.currentUserId) b
           { sender := "bot", type := "text", content := botContent },
         Write.updateActivity (interpolate s.currentUserId) b] := by
  have hne : s.activeSessionId ≠ some TEMP_NEW_SESSION := by
    rw [hA.1]; simpa using hA.2
  have hsave := save_undisturbed_active env.textSave (removeImagePreview { s with userInput := "" })
    { sender := "user", type := "text", content := trim s.userInput } hUser hne hSaves.1
  have hab : s.activeSessionId ≠ some b := by
    rw [hA.1]; intro h; exact hB.2.1 (Option.some.inj h).symm
  rw [handleSendMessage_text env s hText hImage, if_neg (by rw [hsave]; exact hne)]
  obtain ⟨botContent, h⟩ := respond_switched env
    (saveMessageToFirestore env.textSave (removeImagePreview { s with userInput := "" })
      { sender := "user", type := "text", content := trim s.userInput }).1
    (trim s.userInput) s.currentBase64Image
    s.currentMimeType b (by rw [hsave]; exact hUser) (by rw [hsave]; exact hne)
    ⟨hB.1, by rw [hsave]; exact hab, hB.2.2⟩
    (by rw [hsave]; exact hWindow) hSaves.2 hSwitch
  refine ⟨botContent, ?_⟩
  rw [h, hsave]
  simp [interpolate, hA.1, removeImagePreview]

/-- C7: a signed-in user whose `activeSessionId` is the sentinel sends a text
whose trimmed form is not empty, with no pending image, every store write
succeeding and no other operation interleaved; whatever the completion call
gives (any text, or a rejection) and whatever the window holds,
`handleSendMessage` issues exactly these writes, in this order: one
create-session, the append of the user message with that text to the created
session, an activity update on it, the append of one bot message to it, and
a second activity update on it. -/
theorem first_send_from_unsaved (env : SendEnv) (s : State)
    (hUser : truthy s.currentUserId = true)
    (hActive : s.activeSessionId = some TEMP_NEW_SESSION)
    (hText : trim s.userInput ≠ "")
    (hImage : truthy s.currentBase64Image = false)
    (hSaves : env.textSave.Undisturbed ∧ env.botSave.Undisturbed)
    (hQuiet : env.pause = [] ∧ env.completionDuring = [])
    (hId : env.textSave.createdId ≠ TEMP_NEW_SESSION) :
    ∃ botContent : String,
      (handleSendMessage env s).writes = s.writes ++
        [Write.createSession (interpolate s.currentUserId) (sessionTitle (trim s.userInput)),
         Write.appendMessage (interpolate s.currentUserId) env.textSave.createdId
           { sender := "user", type := "text", content := trim s.userInput },
         Write.updateActivity (interpolate s.currentUserId) env.textSave.createdId,
         Write.appendMessage (interpolate s.currentUserId) env.textSave.createdId
           { sender := "bot", type := "text", content := botContent },
         Write.updateActivity (interpolate s.currentUserId) env.textSave.createdId] := by
  have hsave := save_undisturbed_temp env.textSave (removeImagePreview { s with userInput := "" })
    { sender := "user", type := "text", content := trim s.userInput } hUser hActive hSaves.1
  have hact : (saveMessageToFirestore env.textSave (removeImagePreview { s with userInput := "" })
      { sender := "user", type := "text", content := trim s.userInput }).1.activeSessionId
        ≠ some TEMP_NEW_SESSION := by
    rw [hsave]; simpa [loadChatHistory_activeSessionId] using hId
  rw [handleSendMessage_text env s hText hImage, if_neg hact,
    respond_quiet env _ _ _ _
      (by rw [hsave]; simpa [loadChatHistory_currentUserId, removeImagePreview] using hUser)
      hact hSaves.2 hQuiet.2]
  refine ⟨(match buildContents s.shortTerm (trim s.userInput) s.currentBase64Image
      s.currentMimeType with
    | none => "Sorry, an error occurred."
    | some contents => (env.callGeminiAPI contents).getD "Sorry, an error occurred."), ?_⟩
  rw [hsave]
  simp only [loadChatHistory_currentUserId, loadChatHistory_activeSessionId,
    loadChatHistory_shortTerm, removeImagePreview,
    interpolate, List.append_assoc, List.cons_append, List.nil_append]

/-- The loop of lines 403-409 issues no write. -/
theorem foldl_addMessage_writes (snapshot : List MessageData) : ∀ s : State,
    (snapshot.foldl (fun acc msg => addMessage acc msg.sender
        (if msg.type = "image" then "[Image]" else msg.content)) s).writes = s.writes := by
  induction snapshot with
  | nil => intro s; rfl
  | cons m ms ih => intro s; rw [List.foldl_cons, ih]; rfl

/-- No handler issues a write. -/
theorem Op.run_writes (op : Op) (s : State) : (op.run s).writes = s.writes := by
  cases op with
  | selectSession id => exact (selectSession_frame s id).1
  | startNewUnsavedChat => rfl
  | updateUIToLoggedOutState => rfl
  | loadChatSessions =>
    simp only [Op.run]
    unfold ChatIQ.loadChatSessions
    split <;> rfl
  | loadChatHistory id => exact loadChatHistory_writes s id
  | messagesSnapshot handle snapshot =>
    simp only [Op.run]
    unfold onMessagesSnapshot
    split
    · split
      · rfl
      · rw [foldl_addMessage_writes]; rfl
    · rfl

/-- No sequence of handlers issues a write. -/
theorem runOps_writes (ops : List Op) : ∀ s : State, (runOps s ops).writes = s.writes := by
  induction ops with
  | nil => intro s; rfl
  | cons op ops ih =>
    intro s
    simp only [runOps, List.foldl_cons] at ih ⊢
    rw [ih, Op.run_writes]

/-- The first segment of a save only adds to the write log. -/
theorem saveCall_writes (s : State) (m : MessageData) :
    ∃ rest, (saveCall s m).1.writes = s.writes ++ rest := by
  unfold saveCall
  split
  · exact ⟨[], by simp⟩
  · split
    · exact ⟨_, rfl⟩
    · exact ⟨_, rfl⟩

/-- A later segment of a save only adds to the write log. -/
theorem saveResume_writes (s : State) (m : MessageData) (p : SavePoint) (r : Option String) :
    ∃ rest, (saveResume s m p r).1.writes = s.writes ++ rest := by
  unfold saveResume
  split
  · exact ⟨[], by simp⟩
  · rename_i id
    exact ⟨[Write.appendMessage (interpolate (loadChatHistory
        { s with activeSessionId := some id, sessionStorage := some id } id).currentUserId)
        (interpolate (some id)) m], by simp only [issueAppend, loadChatHistory_writes]⟩
  · exact ⟨[], by simp [showError]⟩
  · exact ⟨_, rfl⟩
  · exact ⟨[], by simp⟩
  · exact ⟨[], by simp⟩

/-- Resuming a save, after any handlers, only adds to the write log. -/
theorem saveAdvance_writes (env : SaveEnv) (m : MessageData) (p : State × SavePoint) :
    ∃ rest, (saveAdvance env m p).1.writes = p.1.writes ++ rest := by
  unfold saveAdvance
  split
  · exact ⟨[], by simp⟩
  · obtain ⟨rest, h⟩ := saveResume_writes (runOps p.1 env.create.during) m p.2 env.create.result
    exact ⟨rest, by rw [h, runOps_writes]⟩
  · obtain ⟨rest, h⟩ := saveResume_writes (runOps p.1 env.append.during) m p.2 env.append.result
    exact ⟨rest, by rw [h, runOps_writes]⟩
  · obtain ⟨rest, h⟩ := saveResume_writes (runOps p.1 env.update.during) m p.2 env.update.result
    exact ⟨rest, by rw [h, runOps_writes]⟩

/-- A save, whatever happens around it, only adds to the write log. -/
theorem saveMessageToFirestore_writes (env : SaveEnv) (s : State) (m : MessageData) :
    ∃ rest, (saveMessageToFirestore env s m).1.writes = s.writes ++ rest := by
  obtain ⟨r0, h0⟩ := saveCall_writes s m
  obtain ⟨r1, h1⟩ := saveAdvance_writes env m (saveCall s m)
  obtain ⟨r2, h2⟩ := saveAdvance_writes env m (saveAdvance env m (saveCall s m))
  obtain ⟨r3, h3⟩ := saveAdvance_writes env m
    (saveAdvance env m (saveAdvance env m (saveCall s m)))
  refine ⟨r0 ++ r1 ++ r2 ++ r3, ?_⟩
  simp only [saveMessageToFirestore]
  rw [h3, h2, h1, h0]
  simp

/-- Lines 457-483, whatever happens around them, only add to the write log. -/
theorem respond_writes (env : SendEnv) (t : State) (text : String) (img mime : Option String) :
    ∃ rest, (handleSendMessage.respond env t text img mime).writes = t.writes ++ rest := by
  have hbot : ∀ (cs : List (List Content)) (ops : List Op) (content : String),
      ∃ rest, (saveBotMessage env (runOps { t with completions := cs } ops) content).writes
        = t.writes ++ rest := by
    intro cs ops content
    obtain ⟨rest, h⟩ := saveMessageToFirestore_writes env.botSave
      (runOps { t with completions := cs } ops)
      { sender := "bot", type := "text", content := content }
    exact ⟨rest, by rw [saveBotMessage, h, runOps_writes]⟩
  unfold handleSendMessage.respond
  split
  · exact ⟨[], by simp [showError]⟩
  · split
    · exact hbot t.completions [] _
    · split
      · exact hbot _ _ _
      · exact hbot _ _ _

/-- A send of an image with a text: two saves, then the response. -/
theorem handleSendMessage_image_text (env : SendEnv) (s : State)
    (hText : trim s.userInput ≠ "") (hImage : truthy s.currentBase64Image = true) :
    handleSendMessage env s =
      handleSendMessage.respond env
        (if (saveMessageToFirestore env.textSave
              (saveMessageToFirestore env.imageSave (removeImagePreview { s with userInput := "" })
                { sender := "user", type := "image", content := interpolate s.currentBase64Image,
                  mimeType := s.currentMimeType }).1
              { sender := "user", type := "text", content := trim s.userInput }).1.activeSessionId
              = some TEMP_NEW_SESSION then
            runOps (saveMessageToFirestore env.textSave
              (saveMessageToFirestore env.imageSave (removeImagePreview { s with userInput := "" })
                { sender := "user", type := "image", content := interpolate s.currentBase64Image,
                  mimeType := s.currentMimeType }).1
              { sender := "user", type := "text", content := trim s.userInput }).1 env.pause
          else (saveMessageToFirestore env.textSave
              (saveMessageToFirestore env.imageSave (removeImagePreview { s with userInput := "" })
                { sender := "user", type := "image", content := interpolate s.currentBase64Image,
                  mimeType := s.currentMimeType }).1
              { sender := "user", type := "text", content := trim s.userInput }).1)
        (trim s.userInput) s.currentBase64Image s.currentMimeType := by
  unfold handleSendMessage
  simp only [hText, hImage, bne_iff_ne, ne_eq, not_false_eq_true, if_true, beq_iff_eq,
    Bool.not_true, Bool.and_false, Bool.false_eq_true, if_false]

/-- C8, amended: for every `handleSendMessage` call by a signed-in user with a
non-empty trimmed text and a pending image, with the store writes of the two
saves succeeding and no handler running while they are awaited (a created id
other than the sentinel), the append of the image message and its activity
update are issued before the append of the text message, both appends go to
the same session (the created one from the unsaved state, the active one
otherwise), whatever the rest of the send does afterwards. -/
theorem image_saved_before_text (env : SendEnv) (s : State)
    (hUser : truthy s.currentUserId = true)
    (hText : trim s.userInput ≠ "")
    (hImage : truthy s.currentBase64Image = true)
    (hSaves : env.imageSave.Undisturbed ∧ env.textSave.Undisturbed)
    (hId : env.imageSave.createdId ≠ TEMP_NEW_SESSION) :
    ∃ after : List Write,
      (handleSendMessage env s).writes = s.writes ++
        (if s.activeSessionId = some TEMP_NEW_SESSION then
          [Write.createSession (interpolate s.currentUserId)
            (sessionTitle (interpolate s.currentBase64Image))]
         else []) ++
        [Write.appendMessage (interpolate s.currentUserId)
           (if s.activeSessionId = some TEMP_NEW_SESSION then env.imageSave.createdId
            else interpolate s.activeSessionId)
           { sender := "user", type := "image", content := interpolate s.currentBase64Image,
             mimeType := s.currentMimeType },
         Write.updateActivity (interpolate s.currentUserId)
           (if s.activeSessionId = some TEMP_NEW_SESSION then env.imageSave.createdId
            else interpolate s.activeSessionId),
         Write.appendMessage (interpolate s.currentUserId)
           (if s.activeSessionId = some TEMP_NEW_SESSION then env.imageSave.createdId
            else interpolate s.activeSessionId)
           { sender := "user", type := "text", content := trim s.userInput },
         Write.updateActivity (interpolate s.currentUserId)
           (if s.activeSessionId = some TEMP_NEW_SESSION then env.imageSave.createdId
            else interpolate s.activeSessionId)] ++ after := by
  rw [handleSendMessage_image_text env s hText hImage]
  by_cases hT : s.activeSessionId = some TEMP_NEW_SESSION
  · have h1 := save_undisturbed_temp env.imageSave (removeImagePreview { s with userInput := "" })
      { sender := "user", type := "image", content := interpolate s.currentBase64Image,
        mimeType := s.currentMimeType } hUser hT hSaves.1
    have h2 := save_undisturbed_active env.textSave
      (saveMessageToFirestore env.imageSave (removeImagePreview { s with userInput := "" })
        { sender := "user", type := "image", content := interpolate s.currentBase64Image,
          mimeType := s.currentMimeType }).1
      { sender := "user", type := "text", content := trim s.userInput }
      (by rw [h1]; simpa [loadChatHistory_currentUserId, removeImagePreview] using hUser)
      (by rw [h1]; simpa [loadChatHistory_activeSessionId] using hId) hSaves.2
    rw [if_neg (by rw [h2, h1]; simpa [loadChatHistory_activeSessionId] using hId)]
    obtain ⟨rest, hr⟩ := respond_writes env
      (saveMessageToFirestore env.textSave
        (saveMessageToFirestore env.imageSave (removeImagePreview { s with userInput := "" })
          { sender := "user", type := "image", content := interpolate s.currentBase64Image,
            mimeType := s.currentMimeType }).1
        { sender := "user", type := "text", content := trim s.userInput }).1
      (trim s.userInput) s.currentBase64Image s.currentMimeType
    refine ⟨rest, ?_⟩
    rw [hr, h2, h1]
    simp [hT, loadChatHistory_currentUserId, loadChatHistory_activeSessionId, removeImagePreview,
      interpolate]
  · have h1 := save_undisturbed_active env.imageSave
      (removeImagePreview { s with userInput := "" })
      { sender := "user", type := "image", content := interpolate s.currentBase64Image,
        mimeType := s.currentMimeType } hUser hT hSaves.1
    have h2 := save_undisturbed_active env.textSave
      (saveMessageToFirestore env.imageSave (removeImagePreview { s with userInput := "" })
        { sender := "user", type := "image", content := interpolate s.currentBase64Image,
          mimeType := s.currentMimeType }).1
      { sender := "user", type := "text", content := trim s.userInput }
      (by rw [h1]; exact hUser) (by rw [h1]; exact hT) hSaves.2
    rw [if_neg (by rw [h2, h1]; exact hT)]
    obtain ⟨rest, hr⟩ := respond_writes env
      (saveMessageToFirestore env.textSave
        (saveMessageToFirestore env.imageSave (removeImagePreview { s with userInput := "" })
          { sender := "user", type := "image", content := interpolate s.currentBase64Image,
            mimeType := s.currentMimeType }).1
        { sender := "user", type := "text", content := trim s.userInput }).1
      (trim s.userInput) s.currentBase64Image s.currentMimeType
    refine ⟨rest, ?_⟩
    rw [hr, h2, h1]
    simp [hT, removeImagePreview]

/-- C6, a witness of `bot_reply_goes_to_active_session`: session B is selected
while the reply to a message sent in session A is awaited. -/
theorem bot_reply_goes_to_active_session_witness :
    ∃ botContent : String,
      (handleSendMessage
        { imageSave := ⟨⟨[], some "S1"⟩, ⟨[], some "m1"⟩, ⟨[], some ""⟩⟩,
          textSave := ⟨⟨[], some "S2"⟩, ⟨[], some "m2"⟩, ⟨[], some ""⟩⟩,
          completionDuring := [Op.selectSession "B"],
          callGeminiAPI := fun _ => some "reply",
          botSave := ⟨⟨[], some "S3"⟩, ⟨[], some "m3"⟩, ⟨[], some ""⟩⟩ }
        { currentUserId := some "u", activeSessionId := some "A", userInput := "Hello",
          shortTerm := [{ sender := "user", content := "Hello" }] }).writes = [] ++
        [Write.appendMessage "u" "A" { sender := "user", type := "text", content := trim "Hello" },
         Write.updateActivity "u" "A",
         Write.appendMessage "u" "B" { sender := "bot", type := "text", content := botContent },
         Write.updateActivity "u" "B"] :=
  bot_reply_goes_to_active_session
    { imageSave := ⟨⟨[], some "S1"⟩, ⟨[], some "m1"⟩, ⟨[], some ""⟩⟩,
      textSave := ⟨⟨[], some "S2"⟩, ⟨[], some "m2"⟩, ⟨[], some ""⟩⟩,
      completionDuring := [Op.selectSession "B"],
      callGeminiAPI := fun _ => some "reply",
      botSave := ⟨⟨[], some "S3"⟩, ⟨[], some "m3"⟩, ⟨[], some ""⟩⟩ }
    { currentUserId := some "u", activeSessionId := some "A", userInput := "Hello",
      shortTerm := [{ sender := "user", content := "Hello" }] }
    "A" "B" (by decide) ⟨rfl, by decide⟩ ⟨by decide, by decide, by decide⟩ (by decide)
    (by decide) (by decide) ⟨⟨rfl, rfl, rfl, rfl, rfl, rfl⟩, ⟨rfl, rfl, rfl, rfl, rfl, rfl⟩⟩ rfl

set_option maxRecDepth 100000 in
/-- C6: a counterexample.  A signed-in user sends "Hello" in session A; while
the completion call is awaited session B is selected; the user message is
appended to A and the bot reply to B. -/
theorem bot_reply_lands_in_other_session :
    appendedMessages (handleSendMessage
        { imageSave := ⟨⟨[], some "S1"⟩, ⟨[], some "m1"⟩, ⟨[], some ""⟩⟩,
          textSave := ⟨⟨[], some "S2"⟩, ⟨[], some "m2"⟩, ⟨[], some ""⟩⟩,
          completionDuring := [Op.selectSession "B"],
          callGeminiAPI := fun _ => some "reply",
          botSave := ⟨⟨[], some "S3"⟩, ⟨[], some "m3"⟩, ⟨[], some ""⟩⟩ }
        { currentUserId := some "u", activeSessionId := some "A", userInput := "Hello",
          shortTerm := [{ sender := "user", content := "Hello" }] }).writes
      = [("A", { sender := "user", type := "text", content := "Hello" }),
         ("B", { sender := "bot", type := "text", content := "reply" })] := by
  decide

/-- C7, a witness of `first_send_from_unsaved`: the first "Hello" of a new chat.
No snapshot reaches the window before line 462, so line 468 throws and the
bot message is the one of line 480. -/
theorem first_send_from_unsaved_witness :
    ∃ botContent : String,
      (handleSendMessage
        { imageSave := ⟨⟨[], some "S1"⟩, ⟨[], some "m1"⟩, ⟨[], some ""⟩⟩,
          textSave := ⟨⟨[], some "S2"⟩, ⟨[], some "m2"⟩, ⟨[], some ""⟩⟩,
          callGeminiAPI := fun _ => some "Hi there",
          botSave := ⟨⟨[], some "S3"⟩, ⟨[], some "m3"⟩, ⟨[], some ""⟩⟩ }
        { currentUserId := some "u", activeSessionId := some TEMP_NEW_SESSION,
          userInput := " Hello " }).writes = [] ++
        [Write.createSession "u" (sessionTitle (trim " Hello ")),
         Write.appendMessage "u" "S2"
           { sender := "user", type := "text", content := trim " Hello " },
         Write.updateActivity "u" "S2",
         Write.appendMessage "u" "S2" { sender := "bot", type := "text", content := botContent },
         Write.updateActivity "u" "S2"] :=
  first_send_from_unsaved
    { imageSave := ⟨⟨[], some "S1"⟩, ⟨[], some "m1"⟩, ⟨[], some ""⟩⟩,
      textSave := ⟨⟨[], some "S2"⟩, ⟨[], some "m2"⟩, ⟨[], some ""⟩⟩,
      callGeminiAPI := fun _ => some "Hi there",
      botSave := ⟨⟨[], some "S3"⟩, ⟨[], some "m3"⟩, ⟨[], some ""⟩⟩ }
    { currentUserId := some "u", activeSessionId := some TEMP_NEW_SESSION,
      userInput := " Hello " }
    (by decide) rfl (by decide) (by decide)
    ⟨⟨rfl, rfl, rfl, rfl, rfl, rfl⟩, ⟨rfl, rfl, rfl, rfl, rfl, rfl⟩⟩ ⟨rfl, rfl⟩ (by decide)

/-- C8, a witness of `image_saved_before_text`: an image with a caption sent from
the unsaved state. -/
theorem image_saved_before_text_witness :
    ∃ after : List Write,
      (handleSendMessage
        { imageSave := ⟨⟨[], some "S1"⟩, ⟨[], some "m1"⟩, ⟨[], some ""⟩⟩,
          textSave := ⟨⟨[], some "S2"⟩, ⟨[], some "m2"⟩, ⟨[], some ""⟩⟩,
          callGeminiAPI := fun _ => some "hi",
          botSave := ⟨⟨[], some "S3"⟩, ⟨[], some "m3"⟩, ⟨[], some ""⟩⟩ }
        { currentUserId := some "u", activeSessionId := some TEMP_NEW_SESSION,
          userInput := "caption", currentBase64Image := some "AAAA",
          currentMimeType := some "image/png" }).writes = [] ++
        (if some TEMP_NEW_SESSION = some TEMP_NEW_SESSION then
          [Write.createSession "u" (sessionTitle "AAAA")]
         else []) ++
        [Write.appendMessage "u"
           (if some TEMP_NEW_SESSION = some TEMP_NEW_SESSION then "S1" else TEMP_NEW_SESSION)
           { sender := "user", type := "image", content := "AAAA", mimeType := some "image/png" },
         Write.updateActivity "u"
           (if some TEMP_NEW_SESSION = some TEMP_NEW_SESSION then "S1" else TEMP_NEW_SESSION),
         Write.appendMessage "u"
           (if some TEMP_NEW_SESSION = some TEMP_NEW_SESSION then "S1" else TEMP_NEW_SESSION)
           { sender := "user", type := "text", content := trim "caption" },
         Write.updateActivity "u"
           (if some TEMP_NEW_SESSION = some TEMP_NEW_SESSION then "S1" else TEMP_NEW_SESSION)]
        ++ after :=
  image_saved_before_text
    { imageSave := ⟨⟨[], some "S1"⟩, ⟨[], some "m1"⟩, ⟨[], some ""⟩⟩,
      textSave := ⟨⟨[], some "S2"⟩, ⟨[], some "m2"⟩, ⟨[], some ""⟩⟩,
      callGeminiAPI := fun _ => some "hi",
      botSave := ⟨⟨[], some "S3"⟩, ⟨[], some "m3"⟩, ⟨[], some ""⟩⟩ }
    { currentUserId := some "u", activeSessionId := some TEMP_NEW_SESSION,
      userInput := "caption", currentBase64Image := some "AAAA",
      currentMimeType := some "image/png" }
    (by decide) (by decide) (by decide)
    ⟨⟨rfl, rfl, rfl, rfl, rfl, rfl⟩, ⟨rfl, rfl, rfl, rfl, rfl, rfl⟩⟩ (by decide)

set_option maxRecDepth 100000 in
/-- C8: a counterexample.  A signed-in user sends an image with a caption from
the unsaved state, every write succeeds, and session B is selected while the
append of the image message is awaited: the image message is appended to the
created session S1 and the text message to B. -/
theorem image_and_text_in_different_sessions :
    (appendedMessages (handleSendMessage
        { imageSave := ⟨⟨[], some "S1"⟩, ⟨[Op.selectSession "B"], some "m1"⟩, ⟨[], some ""⟩⟩,
          textSave := ⟨⟨[], some "S2"⟩, ⟨[], some "m2"⟩, ⟨[], some ""⟩⟩,
          callGeminiAPI := fun _ => some "hi",
          botSave := ⟨⟨[], some "S3"⟩, ⟨[], some "m3"⟩, ⟨[], some ""⟩⟩ }
        { currentUserId := some "u", activeSessionId := some TEMP_NEW_SESSION,
          userInput := "caption", currentBase64Image := some "AAAA",
          currentMimeType := some "image/png" }).writes).take 2
      = [("S1", { sender := "user", type := "image", content := "AAAA",
                  mimeType := some "image/png" }),
         ("B", { sender := "user", type := "text", content := "caption" })] := by
  decide

/-! ## The request of a send (C9) -/

/-- The `contents` list of a window with a last entry, written out. -/
theorem buildContents_append (t : List Entry) (a : Entry) (textContent : String)
    (imageBase64 imageMimeType : Option String) :
    buildContents (t ++ [a]) textContent imageBase64 imageMimeType = some
      (t.map (fun msg => ({ role := if msg.sender = "user" then "user" else "model",
                            parts := [Part.text msg.content] } : Content)) ++
        [{ role := if a.sender = "user" then "user" else "model",
           parts := Part.text (botPersonaInstructions ++ "\n\nUSER QUERY:\n" ++
               (if textContent = "" then "(Analyze the image)" else textContent)) ::
             (if truthy imageBase64 = true ∧ truthy imageMimeType = true then
               [Part.inlineData (interpolate imageMimeType) (interpolate imageBase64)]
              else []) }]) := by
  unfold buildContents
  simp only [List.map_append, List.map_cons, List.map_nil,
    List.getLast?_append, List.getLast?_singleton,
    List.set_cons_zero]
  rw [List.dropLast_append_of_ne_nil _ (by simp), List.dropLast_single, List.append_nil]
  by_cases h1 : textContent = "" <;> by_cases h2 : truthy imageBase64 = true <;>
    by_cases h3 : truthy imageMimeType = true <;> simp [h1, h2, h3]

/-- C9: for every non-empty window of n entries the `contents` list built by
`handleSendMessage` (lines 462-471) has n entries in window order; every
entry before the last has role user when its sender is user and model
otherwise, and the one part whose text is the entry content unchanged; the
last entry has its role by the same rule and carries the persona: its text is
`botPersonaInstructions`, then the USER QUERY separator, then the trimmed user
text, or (Analyze the image) when that text is empty; it has a second,
`inlineData` part exactly when image data and mime type are both present. -/
theorem contents_follow_window (w : List Entry) (textContent : String)
    (imageBase64 imageMimeType : Option String) (h : w ≠ []) :
    ∃ contents : List Content,
      buildContents w textContent imageBase64 imageMimeType = some contents ∧
      contents.length = w.length ∧
      (∀ (i : Nat) (e : Entry), i + 1 < w.length → w[i]? = some e →
        contents[i]? = some
          { role := if e.sender = "user" then "user" else "model",
            parts := [Part.text e.content] }) ∧
      contents[w.length - 1]? = some
        { role := if (w.getLast h).sender = "user" then "user" else "model",
          parts := Part.text (botPersonaInstructions ++ "\n\nUSER QUERY:\n" ++
              (if textContent = "" then "(Analyze the image)" else textContent)) ::
            (if truthy imageBase64 = true ∧ truthy imageMimeType = true then
              [Part.inlineData (interpolate imageMimeType) (interpolate imageBase64)]
             else []) } := by
  rcases List.eq_nil_or_concat w with rfl | ⟨t, a, rfl⟩
  · exact absurd rfl h
  · simp only [List.concat_eq_append] at h ⊢
    refine ⟨_, buildContents_append t a textContent imageBase64 imageMimeType, ?_, ?_, ?_⟩
    · simp
    · intro i e hi he
      simp only [List.length_append, List.length_singleton] at hi
      have hi' : i < t.length := by omega
      rw [List.getElem?_append_left hi'] at he
      rw [List.getElem?_append_left (by simpa using hi'), List.getElem?_map, he]
      rfl
    · simp only [List.length_append, List.length_singleton,
        Nat.add_sub_cancel, List.getLast_append_singleton]
      rw [List.getElem?_append_right (by simp)]
      simp

/-- C9, a witness of `contents_follow_window`: a window of three entries, an
image and no text. -/
theorem contents_follow_window_witness :
    ∃ contents : List Content,
      buildContents
        [{ sender := "user", content := "hi" }, { sender := "bot", content := "hello" },
         { sender := "user", content := "[Image]" }] "" (some "AAAA") (some "image/png")
        = some contents ∧
      contents.length = 3 ∧
      contents[0]? = some { role := "user", parts := [Part.text "hi"] } ∧
      contents[1]? = some { role := "model", parts := [Part.text "hello"] } ∧
      contents[2]? = some
        { role := "user",
          parts := [Part.text (botPersonaInstructions ++ "\n\nUSER QUERY:\n" ++
              "(Analyze the image)"), Part.inlineData "image/png" "AAAA"] } := by
  obtain ⟨contents, h1, h2, h3, h4⟩ := contents_follow_window
    [{ sender := "user", content := "hi" }, { sender := "bot", content := "hello" },
     { sender := "user", content := "[Image]" }] "" (some "AAAA") (some "image/png") (by decide)
  exact ⟨contents, h1, h2, h3 0 _ (by decide) rfl, h3 1 _ (by decide) rfl, h4⟩

/-! ## `callGeminiAPI` (C10) -/

/-- The function of lines 486-512 never throws: for every payload and every
behaviour of `fetch` and of `json()` (rejections included) it returns a
string, and when the url is configured and `fetch` itself rejects, that
string is exactly "Failed to connect to the AI service.". -/
theorem callGeminiAPI_returns_string (svc : Service) (payload : List Content) :
    ∃ text : String,
      callGeminiAPI svc payload = Except.ok text ∧
      (svc.geminiApiUrl ≠ "" → svc.fetch payload = none →
        text = "Failed to connect to the AI service.") := by
  unfold callGeminiAPI
  by_cases hurl : svc.geminiApiUrl = ""
  · exact ⟨"AI service is not configured. Please check your config.js file.",
      by simp only [hurl, if_true], fun h => absurd hurl h⟩
  · simp only [hurl, if_false]
    cases hatt : callGeminiAPI.attempt svc payload with
    | ok text =>
      refine ⟨text, rfl, fun _ hf => ?_⟩
      simp [callGeminiAPI.attempt, hf] at hatt
    | error e => exact ⟨_, rfl, fun _ _ => rfl⟩

/-- The call of line 474 as a script binds it: when `fetch` rejects, the
awaited call rejects, and a send in a stored session (signed-in user,
non-empty window, completion call and bot save undisturbed) stores the
string of line 480 as the bot message. -/
theorem respond_callee_rejected (svc : Service) (render : Option Body → String)
    (env : SendEnv) (t : State) (textContent : String) (imageBase64 imageMimeType : Option String)
    (hCall : env.callGeminiAPI = handleSendMessage.callee svc render)
    (hFetch : ∀ payload : List Content, svc.fetch payload = none)
    (hu : truthy t.currentUserId = true) (ha : t.activeSessionId ≠ some TEMP_NEW_SESSION)
    (hw : t.shortTerm ≠ []) (he : env.botSave.Undisturbed) (hq : env.completionDuring = []) :
    (handleSendMessage.respond env t textContent imageBase64 imageMimeType).writes =
      t.writes ++
        [Write.appendMessage (interpolate t.currentUserId) (interpolate t.activeSessionId)
           { sender := "bot", type := "text", content := "Sorry, an error occurred." },
         Write.updateActivity (interpolate t.currentUserId) (interpolate t.activeSessionId)] := by
  obtain ⟨contents, hc⟩ := buildContents_isSome t.shortTerm textContent imageBase64
    imageMimeType hw
  rw [respond_quiet env t textContent imageBase64 imageMimeType hu ha he hq, hc, hCall]
  simp [handleSendMessage.callee, Verify.callGeminiAPI, hFetch]

set_option maxRecDepth 100000 in
/-- C10: the code at the failing input.  A signed-in user sends "Hello" in the
stored session "A", the store delivers the saved message to the listener of
"A", and `fetch` rejects.  The function of lines 486-512 returns "Failed to
connect to the AI service." for the request of the send, but line 474 does
not reach it: the name `callGeminiAPI` is declared again at lines 664-672,
a script binds the name to that later declaration, which has no `try`, so
the rejection is caught at line 478 and the bot message stored by line 480
reads "Sorry, an error occurred.". -/
theorem transport_failure_stored_as_generic_error :
    (∀ render : Option Body → String,
      (handleSendMessage
        { imageSave := ⟨⟨[], some "S1"⟩, ⟨[], some "m1"⟩, ⟨[], some ""⟩⟩,
          textSave := ⟨⟨[], some "S2"⟩,
            ⟨[Op.messagesSnapshot 0 [{ sender := "user", type := "text", content := "Hello" }]],
              some "m2"⟩, ⟨[], some ""⟩⟩,
          callGeminiAPI := handleSendMessage.callee
            { geminiApiUrl := "https://example.test", fetch := fun _ => none } render,
          botSave := ⟨⟨[], some "S3"⟩, ⟨[], some "m3"⟩, ⟨[], some ""⟩⟩ }
        { currentUserId := some "u", activeSessionId := some "A", messagesUnsubscribe := some 0,
          messageSubs := [⟨"A", true⟩], userInput := "Hello" }).writes
      = [Write.appendMessage "u" "A" { sender := "user", type := "text", content := "Hello" },
         Write.updateActivity "u" "A",
         Write.appendMessage "u" "A"
           { sender := "bot", type := "text", content := "Sorry, an error occurred." },
         Write.updateActivity "u" "A"]) ∧
    (∀ render : Option Body → String,
      (handleSendMessage
        { imageSave := ⟨⟨[], some "S1"⟩, ⟨[], some "m1"⟩, ⟨[], some ""⟩⟩,
          textSave := ⟨⟨[], some "S2"⟩,
            ⟨[Op.messagesSnapshot 0 [{ sender := "user", type := "text", content := "Hello" }]],
              some "m2"⟩, ⟨[], some ""⟩⟩,
          callGeminiAPI := handleSendMessage.callee
            { geminiApiUrl := "https://example.test", fetch := fun _ => none } render,
          botSave := ⟨⟨[], some "S3"⟩, ⟨[], some "m3"⟩, ⟨[], some ""⟩⟩ }
        { currentUserId := some "u", activeSessionId := some "A", messagesUnsubscribe := some 0,
          messageSubs := [⟨"A", true⟩], userInput := "Hello" }).completions
      = [[{ role := "user",
            parts := [Part.text (botPersonaInstructions ++ "\n\nUSER QUERY:\n" ++ "Hello")] }]]) ∧
    callGeminiAPI { geminiApiUrl := "https://example.test", fetch := fun _ => none }
        [{ role := "user",
           parts := [Part.text (botPersonaInstructions ++ "\n\nUSER QUERY:\n" ++ "Hello")] }]
      = Except.ok "Failed to connect to the AI service." := by
  refine ⟨fun _ => ?_, fun _ => ?_, ?_⟩ <;> rfl

/-! ## Responses of the completion service (C11, C12) -/

/-- C12: the code at the failing input.  The service answers with success and
the body `{ "candidates": [] }`: the empty list is truthy, line 503 reads
`content` of `undefined`, the `TypeError` is caught at line 508, and
`callGeminiAPI` returns the transport fallback, not the empty-response
string; the same happens for a first candidate without `content`, without
`parts` or with an empty `parts`. -/
theorem empty_candidates_reported_as_connection_failure :
    callGeminiAPI
        { geminiApiUrl := "https://example.test",
          fetch := fun _ => some ⟨true, .object { candidates := some [] }⟩ } []
      = Except.ok "Failed to connect to the AI service." ∧
    callGeminiAPI
        { geminiApiUrl := "https://example.test",
          fetch := fun _ => some ⟨true, .object { candidates := some [{ content := none }] }⟩ } []
      = Except.ok "Failed to connect to the AI service." ∧
    callGeminiAPI
        { geminiApiUrl := "https://example.test",
          fetch := fun _ =>
            some ⟨true, .object { candidates := some [{ content := some { parts := none } }] }⟩ }
        []
      = Except.ok "Failed to connect to the AI service." ∧
    callGeminiAPI
        { geminiApiUrl := "https://example.test",
          fetch := fun _ =>
            some ⟨true, .object { candidates := some [{ content := some { parts := some [] } }] }⟩ }
        []
      = Except.ok "Failed to connect to the AI service." ∧
    textOf { candidates := some [] } = none := by
  refine ⟨?_, ?_, ?_, ?_, ?_⟩ <;> rfl

/-- The cases of C12 that the code does answer with the fixed string: no
`candidates` field, or a first part whose text is missing or empty. -/
theorem empty_response_for_missing_candidates_or_text (svc : Service) (payload : List Content)
    (body : Body) (hUrl : svc.geminiApiUrl ≠ "")
    (hFetch : svc.fetch payload = some { ok := true, json := .object body })
    (hBody : body.candidates = none ∨
      ∃ (rest : List CandidateJson) (parts : List PartJson),
        body.candidates = some ({ content := some { parts := some ({ text := none } :: parts) } }
          :: rest) ∨
        body.candidates = some ({ content := some { parts := some ({ text := some "" } :: parts) } }
          :: rest)) :
    callGeminiAPI svc payload = Except.ok "Sorry, I received an empty response from the AI." := by
  unfold callGeminiAPI callGeminiAPI.attempt
  rcases hBody with h | ⟨rest, parts, h | h⟩ <;>
    simp [hUrl, hFetch, awaitJson, extractText, h]

/-- The first `callGeminiAPI` returns a string for every payload. -/
theorem callGeminiAPI_ok (svc : Service) (payload : List Content) :
    ∃ text : String, callGeminiAPI svc payload = Except.ok text := by
  unfold callGeminiAPI
  split
  · exact ⟨_, rfl⟩
  · split
    · exact ⟨_, rfl⟩
    · exact ⟨_, rfl⟩

/-- A send whose completion call is awaited undisturbed hands exactly one
payload to `callGeminiAPI`. -/
theorem respond_quiet_completions (env : SendEnv) (t : State) (text : String)
    (img mime : Option String) (contents : List Content)
    (hu : truthy t.currentUserId = true) (ha : t.activeSessionId ≠ some TEMP_NEW_SESSION)
    (he : env.botSave.Undisturbed) (hq : env.completionDuring = [])
    (hc : buildContents t.shortTerm text img mime = some contents) :
    (handleSendMessage.respond env t text img mime).completions = t.completions ++ [contents] := by
  have key : ∀ content : String,
      (saveBotMessage env { t with completions := t.completions ++ [contents] } content).completions
        = t.completions ++ [contents] := by
    intro content
    unfold saveBotMessage
    rw [save_undisturbed_active env.botSave { t with completions := t.completions ++ [contents] }
      _ hu ha he]
  unfold handleSendMessage.respond
  simp only [ha, if_false, hq, hc, runOps, List.foldl_nil]
  cases env.callGeminiAPI contents with
  | none => exact key _
  | some reply => exact key _

/-- The two non-success responses that `callGeminiAPI` (lines 486-512, url
configured) answers with the detail of the service: a JSON body with
`error.message` = m gives "Error from AI service: " followed by m, and a body
that cannot be parsed gives "Error from AI service: Unknown API error.". -/
theorem error_message_is_formatted (svc : Service) (payload : List Content) (resp : Response)
    (hUrl : svc.geminiApiUrl ≠ "") (hFetch : svc.fetch payload = some resp)
    (hOk : resp.ok = false) :
    (∀ (body : Body) (m : String), resp.json = JsonResult.object body →
      body.error = some { message := some m } →
      callGeminiAPI svc payload = Except.ok ("Error from AI service: " ++ m)) ∧
    (resp.json = JsonResult.rejects →
      callGeminiAPI svc payload = Except.ok "Error from AI service: Unknown API error.") := by
  refine ⟨?_, ?_⟩
  · intro body m hj he
    simp [callGeminiAPI, callGeminiAPI.attempt, hUrl, hFetch, hOk, hj, awaitJson,
      errorMessageText, he]
  · intro hj
    simp [callGeminiAPI, callGeminiAPI.attempt, hUrl, hFetch, hOk, hj, awaitJson,
      errorMessageText]

/-- C11: the code at the failing input.  The service answers with a
non-success response whose body is a JSON object without an `error` member
(or the JSON value `null`): line 499 reads `message` of `undefined`, the
`TypeError` is caught at line 508, and `callGeminiAPI` (lines 486-512)
returns the transport fallback "Failed to connect to the AI service.", which
holds no detail of the response; for the body `{ "error": {} }` it returns
"Error from AI service: undefined".  The default of line 497 is used only
when `json()` rejects; the bodies `{ "error": { "message": "quota exceeded" } }`
and an unparseable one are answered as the two last equations say. -/
theorem error_body_without_message_loses_detail :
    callGeminiAPI
        { geminiApiUrl := "https://example.test",
          fetch := fun _ => some ⟨false, .object { error := none }⟩ } []
      = Except.ok "Failed to connect to the AI service." ∧
    callGeminiAPI
        { geminiApiUrl := "https://example.test", fetch := fun _ => some ⟨false, .null⟩ } []
      = Except.ok "Failed to connect to the AI service." ∧
    callGeminiAPI
        { geminiApiUrl := "https://example.test",
          fetch := fun _ => some ⟨false, .object { error := some { message := none } }⟩ } []
      = Except.ok "Error from AI service: undefined" ∧
    callGeminiAPI
        { geminiApiUrl := "https://example.test",
          fetch := fun _ =>
            some ⟨false, .object { error := some { message := some "quota exceeded" } }⟩ } []
      = Except.ok "Error from AI service: quota exceeded" ∧
    callGeminiAPI
        { geminiApiUrl := "https://example.test", fetch := fun _ => some ⟨false, .rejects⟩ } []
      = Except.ok "Error from AI service: Unknown API error." := by
  refine ⟨?_, ?_, ?_, ?_, ?_⟩ <;> rfl

/-! ## Feedback and long-term notes (C13) -/

/-- `loadChatHistory` keeps the long-term notes. -/
theorem loadChatHistory_longTerm (s : State) (id : String) :
    (loadChatHistory s id).longTerm = s.longTerm := by
  unfold loadChatHistory
  split <;> rfl

/-- The loop of lines 403-409 keeps the long-term notes. -/
theorem foldl_addMessage_longTerm (snapshot : List MessageData) : ∀ s : State,
    (snapshot.foldl (fun acc msg => addMessage acc msg.sender
        (if msg.type = "image" then "[Image]" else msg.content)) s).longTerm = s.longTerm := by
  induction snapshot with
  | nil => intro s; rfl
  | cons m ms ih => intro s; rw [List.foldl_cons, ih]; rfl

/-- No handler touches the long-term notes. -/
theorem Op.run_longTerm (op : Op) (s : State) : (op.run s).longTerm = s.longTerm := by
  cases op with
  | selectSession id =>
    simp only [Op.run]
    unfold ChatIQ.selectSession
    split
    · rfl
    · rw [loadChatHistory_longTerm]
  | startNewUnsavedChat => rfl
  | updateUIToLoggedOutState => rfl
  | loadChatSessions =>
    simp only [Op.run]
    unfold ChatIQ.loadChatSessions
    split <;> rfl
  | loadChatHistory id => exact loadChatHistory_longTerm s id
  | messagesSnapshot handle snapshot =>
    simp only [Op.run]
    unfold onMessagesSnapshot
    split
    · split
      · rfl
      · rw [foldl_addMessage_longTerm]; rfl
    · rfl

/-- No sequence of handlers touches the long-term notes. -/
theorem runOps_longTerm (ops : List Op) : ∀ s : State, (runOps s ops).longTerm = s.longTerm := by
  induction ops with
  | nil => intro s; rfl
  | cons op ops ih =>
    intro s
    simp only [runOps, List.foldl_cons] at ih ⊢
    rw [ih, Op.run_longTerm]

/-- A note that was just saved reads back, unless its value is empty. -/
theorem getLongTerm_saveLongTerm (s : State) (sessionId : Option String) (key value : String) :
    getLongTerm (saveLongTerm s sessionId key value) sessionId key
      = if value = "" then none else some value := by
  simp [getLongTerm, saveLongTerm]

/-- Where no note has the key, nothing reads back. -/
theorem getLongTerm_none (s : State) (sessionId : Option String) (key : String)
    (h : ∀ n ∈ s.longTerm, n.2.1 ≠ key) : getLongTerm s sessionId key = none := by
  unfold getLongTerm
  rw [List.find?_eq_none.mpr]
  intro n hn
  simp [h n hn]

/-- C13, amended: for a signed-in user, every message id M and every non-empty
content string c, starting from a state with no long-term note for M and
with the feedback write succeeding (whatever handlers run while it is
awaited): after `recordFeedback(M, kind, c)`, `getLongTerm` for the active
session and the note key of M returns c when kind is inaccurate and `null`
for every other kind. -/
theorem note_retrievable_iff_inaccurate (write : Await) (s : State)
    (messageId feedbackType content : String)
    (hUser : truthy s.currentUserId = true)
    (hWrite : write.result.isSome = true)
    (hNone : ∀ n ∈ s.longTerm, n.2.1 ≠ "correction-" ++ messageId)
    (hContent : content ≠ "") :
    (feedbackType = "inaccurate" →
      getLongTerm (recordFeedback write s messageId feedbackType content)
        (recordFeedback write s messageId feedbackType content).activeSessionId
        ("correction-" ++ messageId) = some content) ∧
    (feedbackType ≠ "inaccurate" →
      getLongTerm (recordFeedback write s messageId feedbackType content)
        (recordFeedback write s messageId feedbackType content).activeSessionId
        ("correction-" ++ messageId) = none) := by
  obtain ⟨r, hr⟩ := Option.isSome_iff_exists.mp hWrite
  constructor
  · intro hk
    have : recordFeedback write s messageId feedbackType content =
        saveLongTerm (runOps { s with writes := s.writes ++
          [Write.appendFeedback (interpolate s.currentUserId) s.activeSessionId messageId
            feedbackType content] } write.during)
          (runOps { s with writes := s.writes ++
          [Write.appendFeedback (interpolate s.currentUserId) s.activeSessionId messageId
            feedbackType content] } write.during).activeSessionId
          ("correction-" ++ messageId) content := by
      simp [recordFeedback, hUser, hr, hk]
    rw [this]
    have hact : ∀ (t : State) (sid : Option String) (k v : String),
        (saveLongTerm t sid k v).activeSessionId = t.activeSessionId := fun _ _ _ _ => rfl
    rw [hact, getLongTerm_saveLongTerm, if_neg hContent]
  · intro hk
    apply getLongTerm_none
    intro n hn
    have : (recordFeedback write s messageId feedbackType content).longTerm = s.longTerm := by
      simp [recordFeedback, hUser, hr, hk, runOps_longTerm]
    rw [this] at hn
    exact hNone n hn

/-- C13, a witness of `note_retrievable_iff_inaccurate`: inaccurate feedback on
message M in session A. -/
theorem note_retrievable_iff_inaccurate_witness :
    getLongTerm
        (recordFeedback ⟨[], some "f1"⟩ { currentUserId := some "u", activeSessionId := some "A" }
          "M" "inaccurate" "wrong year")
        (recordFeedback ⟨[], some "f1"⟩ { currentUserId := some "u", activeSessionId := some "A" }
          "M" "inaccurate" "wrong year").activeSessionId
        ("correction-" ++ "M") = some "wrong year" :=
  (note_retrievable_iff_inaccurate ⟨[], some "f1"⟩
    { currentUserId := some "u", activeSessionId := some "A" } "M" "inaccurate" "wrong year"
    (by decide) rfl (by intro n hn; cases hn) (by decide)).1 rfl

/-- C13: a counterexample.  A signed-in user with no long-term note records
inaccurate feedback on message M whose content is the empty string, and the
feedback write succeeds: `saveLongTerm` stores the empty string and
`getLongTerm` (the `|| null` of line 88) returns `null` for the note of M. -/
theorem empty_correction_is_not_retrievable :
    getLongTerm
        (recordFeedback ⟨[], some "f1"⟩ { currentUserId := some "u", activeSessionId := some "A" }
          "M" "inaccurate" "")
        (some "A") "correction-M" = none ∧
    (recordFeedback ⟨[], some "f1"⟩ { currentUserId := some "u", activeSessionId := some "A" }
          "M" "inaccurate" "").longTerm = [("A", "correction-M", "")] := by
  decide

/-! ## A rejected session creation (C14) -/

/-- A save from the unsaved state whose create-session write is rejected,
nothing running meanwhile: the write is issued, `showError` is called, and
nothing else changes. -/
theorem save_create_rejected (env : SaveEnv) (s : State) (m : MessageData)
    (hu : truthy s.currentUserId = true) (ha : s.activeSessionId = some TEMP_NEW_SESSION)
    (hq : env.create.during = []) (hr : env.create.result = none) :
    (saveMessageToFirestore env s m).1 =
      showError { s with writes := s.writes ++
        [Write.createSession (interpolate s.currentUserId) (sessionTitle m.content)] }
        "Could not start a new chat." := by
  simp [saveMessageToFirestore, saveCall, hu, ha, saveAdvance, saveResume, hq, hr, runOps]

/-- C14: a signed-in user sends text, an image or both from the unsaved
state, every create-session write of the send is rejected and no other
operation is interleaved.  After `handleSendMessage` returns,
`activeSessionId` is still the sentinel; the only writes issued are the
rejected create-session writes (one per save attempted), so no
append-message write is issued; no completion request is made; no
message-list listener is opened; the stored last-active id is untouched; and
`showError` has been called with "Could not start a new chat.". -/
theorem rejected_creation_keeps_unsaved_state (env : SendEnv) (s : State)
    (hUser : truthy s.currentUserId = true)
    (hActive : s.activeSessionId = some TEMP_NEW_SESSION)
    (hInput : trim s.userInput ≠ "" ∨ truthy s.currentBase64Image = true)
    (hRejected : env.imageSave.create.result = none ∧ env.textSave.create.result = none)
    (hQuiet : env.imageSave.create.during = [] ∧ env.textSave.create.during = [] ∧
      env.pause = []) :
    (handleSendMessage env s).activeSessionId = some TEMP_NEW_SESSION ∧
    (handleSendMessage env s).writes = s.writes ++
      (if truthy s.currentBase64Image = true then
        [Write.createSession (interpolate s.currentUserId)
          (sessionTitle (interpolate s.currentBase64Image))]
       else []) ++
      (if trim s.userInput = "" then []
       else [Write.createSession (interpolate s.currentUserId)
          (sessionTitle (trim s.userInput))]) ∧
    (handleSendMessage env s).completions = s.completions ∧
    (handleSendMessage env s).messageSubs = s.messageSubs ∧
    (handleSendMessage env s).sessionStorage = s.sessionStorage ∧
    "Could not start a new chat." ∈ (handleSendMessage env s).errors := by
  by_cases hI : truthy s.currentBase64Image = true <;> by_cases hT : trim s.userInput = ""
  · have h1 := save_create_rejected env.imageSave (removeImagePreview { s with userInput := "" })
      { sender := "user", type := "image", content := interpolate s.currentBase64Image,
        mimeType := s.currentMimeType } hUser hActive hQuiet.1 hRejected.1
    unfold handleSendMessage
    simp only [hI, hT, beq_self_eq_true, Bool.not_true, Bool.and_false, Bool.false_eq_true,
      if_false, if_true, bne_self_eq_false]
    rw [h1]
    simp [showError, removeImagePreview, hActive, hQuiet.2.2, runOps, handleSendMessage.respond]
  · have h1 := save_create_rejected env.imageSave (removeImagePreview { s with userInput := "" })
      { sender := "user", type := "image", content := interpolate s.currentBase64Image,
        mimeType := s.currentMimeType } hUser hActive hQuiet.1 hRejected.1
    have h2 := save_create_rejected env.textSave
      (saveMessageToFirestore env.imageSave (removeImagePreview { s with userInput := "" })
        { sender := "user", type := "image", content := interpolate s.currentBase64Image,
          mimeType := s.currentMimeType }).1
      { sender := "user", type := "text", content := trim s.userInput }
      (by rw [h1]; exact hUser) (by rw [h1]; exact hActive) hQuiet.2.1 hRejected.2
    rw [handleSendMessage_image_text env s hT hI, h2, h1]
    simp [showError, removeImagePreview, hActive, hQuiet.2.2, runOps, handleSendMessage.respond,
      hI, hT]
  · exact absurd (hInput.resolve_left (not_not.mpr hT)) hI
  · have hI' : truthy s.currentBase64Image = false := by simpa using hI
    have h2 := save_create_rejected env.textSave (removeImagePreview { s with userInput := "" })
      { sender := "user", type := "text", content := trim s.userInput }
      hUser hActive hQuiet.2.1 hRejected.2
    rw [handleSendMessage_text env s hT hI', h2]
    simp [showError, removeImagePreview, hActive, hQuiet.2.2, runOps, handleSendMessage.respond,
      hI, hT]

/-- C14, a witness of `rejected_creation_keeps_unsaved_state`: the first
"Hello" of a new chat, with the create-session write rejected. -/
theorem rejected_creation_keeps_unsaved_state_witness :
    (handleSendMessage
        { imageSave := ⟨⟨[], none⟩, ⟨[], some "m1"⟩, ⟨[], some ""⟩⟩,
          textSave := ⟨⟨[], none⟩, ⟨[], some "m2"⟩, ⟨[], some ""⟩⟩,
          callGeminiAPI := fun _ => some "hi",
          botSave := ⟨⟨[], some "S3"⟩, ⟨[], some "m3"⟩, ⟨[], some ""⟩⟩ }
        { currentUserId := some "u", activeSessionId := some TEMP_NEW_SESSION,
          userInput := "Hello" }).activeSessionId = some TEMP_NEW_SESSION ∧
    (handleSendMessage
        { imageSave := ⟨⟨[], none⟩, ⟨[], some "m1"⟩, ⟨[], some ""⟩⟩,
          textSave := ⟨⟨[], none⟩, ⟨[], some "m2"⟩, ⟨[], some ""⟩⟩,
          callGeminiAPI := fun _ => some "hi",
          botSave := ⟨⟨[], some "S3"⟩, ⟨[], some "m3"⟩, ⟨[], some ""⟩⟩ }
        { currentUserId := some "u", activeSessionId := some TEMP_NEW_SESSION,
          userInput := "Hello" }).completions = [] :=
  ⟨(rejected_creation_keeps_unsaved_state
      { imageSave := ⟨⟨[], none⟩, ⟨[], some "m1"⟩, ⟨[], some ""⟩⟩,
        textSave := ⟨⟨[], none⟩, ⟨[], some "m2"⟩, ⟨[], some ""⟩⟩,
        callGeminiAPI := fun _ => some "hi",
        botSave := ⟨⟨[], some "S3"⟩, ⟨[], some "m3"⟩, ⟨[], some ""⟩⟩ }
      { currentUserId := some "u", activeSessionId := some TEMP_NEW_SESSION,
        userInput := "Hello" }
      (by decide) rfl (Or.inl (by decide)) ⟨rfl, rfl⟩ ⟨rfl, rfl, rfl⟩).1,
   (rejected_creation_keeps_unsaved_state
      { imageSave := ⟨⟨[], none⟩, ⟨[], some "m1"⟩, ⟨[], some ""⟩⟩,
        textSave := ⟨⟨[], none⟩, ⟨[], some "m2"⟩, ⟨[], some ""⟩⟩,
        callGeminiAPI := fun _ => some "hi",
        botSave := ⟨⟨[], some "S3"⟩, ⟨[], some "m3"⟩, ⟨[], some ""⟩⟩ }
      { currentUserId := some "u", activeSessionId := some TEMP_NEW_SESSION,
        userInput := "Hello" }
      (by decide) rfl (Or.inl (by decide)) ⟨rfl, rfl⟩ ⟨rfl, rfl, rfl⟩).2.2.1⟩

set_option maxRecDepth 100000 in
/-- C14, counterexample: the create-session write of a send from the unsaved
state is rejected, and yet the session state changes.  First input: an image
with the caption "Hello"; the create-session write of the image save is
rejected, the text save of line 454 issues a create-session write of its
own, which succeeds with the id "S2", and the store delivers the saved
caption to the new listener.  Second input: the text "Hello" alone, its
create-session write rejected, and the user selects the stored session "B"
during the pause of line 456.  In both runs `activeSessionId` is no longer
the sentinel, append-message writes are issued and a message-list listener
is opened; in the first a completion request is made as well. -/
theorem rejected_creation_followed_by_session_change :
    (handleSendMessage
        { imageSave := ⟨⟨[], none⟩, ⟨[], some "m1"⟩, ⟨[], some ""⟩⟩,
          textSave := ⟨⟨[], some "S2"⟩,
            ⟨[Op.messagesSnapshot 0 [{ sender := "user", type := "text", content := "Hello" }]],
              some "m2"⟩, ⟨[], some ""⟩⟩,
          callGeminiAPI := fun _ => some "Hi there",
          botSave := ⟨⟨[], some "S3"⟩, ⟨[], some "m3"⟩, ⟨[], some ""⟩⟩ }
        { currentUserId := some "u", activeSessionId := some TEMP_NEW_SESSION,
          userInput := "Hello", currentBase64Image := some "AAAA",
          currentMimeType := some "image/png" }).activeSessionId = some "S2" ∧
    (handleSendMessage
        { imageSave := ⟨⟨[], none⟩, ⟨[], some "m1"⟩, ⟨[], some ""⟩⟩,
          textSave := ⟨⟨[], some "S2"⟩,
            ⟨[Op.messagesSnapshot 0 [{ sender := "user", type := "text", content := "Hello" }]],
              some "m2"⟩, ⟨[], some ""⟩⟩,
          callGeminiAPI := fun _ => some "Hi there",
          botSave := ⟨⟨[], some "S3"⟩, ⟨[], some "m3"⟩, ⟨[], some ""⟩⟩ }
        { currentUserId := some "u", activeSessionId := some TEMP_NEW_SESSION,
          userInput := "Hello", currentBase64Image := some "AAAA",
          currentMimeType := some "image/png" }).writes
      = [Write.createSession "u" "AAAA",
         Write.createSession "u" "Hello",
         Write.appendMessage "u" "S2" { sender := "user", type := "text", content := "Hello" },
         Write.updateActivity "u" "S2",
         Write.appendMessage "u" "S2" { sender := "bot", type := "text", content := "Hi there" },
         Write.updateActivity "u" "S2"] ∧
    (handleSendMessage
        { imageSave := ⟨⟨[], none⟩, ⟨[], some "m1"⟩, ⟨[], some ""⟩⟩,
          textSave := ⟨⟨[], some "S2"⟩,
            ⟨[Op.messagesSnapshot 0 [{ sender := "user", type := "text", content := "Hello" }]],
              some "m2"⟩, ⟨[], some ""⟩⟩,
          callGeminiAPI := fun _ => some "Hi there",
          botSave := ⟨⟨[], some "S3"⟩, ⟨[], some "m3"⟩, ⟨[], some ""⟩⟩ }
        { currentUserId := some "u", activeSessionId := some TEMP_NEW_SESSION,
          userInput := "Hello", currentBase64Image := some "AAAA",
          currentMimeType := some "image/png" }).completions.length = 1 ∧
    (handleSendMessage
        { imageSave := ⟨⟨[], none⟩, ⟨[], some "m1"⟩, ⟨[], some ""⟩⟩,
          textSave := ⟨⟨[], some "S2"⟩,
            ⟨[Op.messagesSnapshot 0 [{ sender := "user", type := "text", content := "Hello" }]],
              some "m2"⟩, ⟨[], some ""⟩⟩,
          callGeminiAPI := fun _ => some "Hi there",
          botSave := ⟨⟨[], some "S3"⟩, ⟨[], some "m3"⟩, ⟨[], some ""⟩⟩ }
        { currentUserId := some "u", activeSessionId := some TEMP_NEW_SESSION,
          userInput := "Hello", currentBase64Image := some "AAAA",
          currentMimeType := some "image/png" }).messageSubs = [⟨"S2", true⟩] ∧
    (handleSendMessage
        { imageSave := ⟨⟨[], none⟩, ⟨[], some "m1"⟩, ⟨[], some ""⟩⟩,
          textSave := ⟨⟨[], none⟩, ⟨[], some "m2"⟩, ⟨[], some ""⟩⟩,
          pause := [Op.selectSession "B"],
          callGeminiAPI := fun _ => some "Hi there",
          botSave := ⟨⟨[], some "S3"⟩, ⟨[], some "m3"⟩, ⟨[], some ""⟩⟩ }
        { currentUserId := some "u", activeSessionId := some TEMP_NEW_SESSION,
          userInput := "Hello" }).activeSessionId = some "B" ∧
    (handleSendMessage
        { imageSave := ⟨⟨[], none⟩, ⟨[], some "m1"⟩, ⟨[], some ""⟩⟩,
          textSave := ⟨⟨[], none⟩, ⟨[], some "m2"⟩, ⟨[], some ""⟩⟩,
          pause := [Op.selectSession "B"],
          callGeminiAPI := fun _ => some "Hi there",
          botSave := ⟨⟨[], some "S3"⟩, ⟨[], some "m3"⟩, ⟨[], some ""⟩⟩ }
        { currentUserId := some "u", activeSessionId := some TEMP_NEW_SESSION,
          userInput := "Hello" }).writes
      = [Write.createSession "u" "Hello",
         Write.appendMessage "u" "B"
           { sender := "bot", type := "text", content := "Sorry, an error occurred." },
         Write.updateActivity "u" "B"] ∧
    (handleSendMessage
        { imageSave := ⟨⟨[], none⟩, ⟨[], some "m1"⟩, ⟨[], some ""⟩⟩,
          textSave := ⟨⟨[], none⟩, ⟨[], some "m2"⟩, ⟨[], some ""⟩⟩,
          pause := [Op.selectSession "B"],
          callGeminiAPI := fun _ => some "Hi there",
          botSave := ⟨⟨[], some "S3"⟩, ⟨[], some "m3"⟩, ⟨[], some ""⟩⟩ }
        { currentUserId := some "u", activeSessionId := some TEMP_NEW_SESSION,
          userInput := "Hello" }).messageSubs = [⟨"B", true⟩] := by
  decide

/-! ## Switching and leaving sessions (C15, C16) -/

/-- `selectSession` leaves the window as it was. -/
theorem selectSession_shortTerm (s : State) (sessionId : String) :
    (selectSession s sessionId).shortTerm = s.shortTerm := by
  unfold selectSession
  split
  · rfl
  · rw [loadChatHistory_shortTerm]

/-- `loadChatHistory` keeps the page elements. -/
theorem loadChatHistory_elements (s : State) (id : String) :
    (loadChatHistory s id).chatBox = s.chatBox ∧
    (loadChatHistory s id).chatBoxWrapper = s.chatBoxWrapper := by
  unfold loadChatHistory
  split <;> exact ⟨rfl, rfl⟩

/-- C15, amended: immediately after `startNewUnsavedChat` returns the window
is empty.  Immediately after `selectSession` returns the window still holds
what it held before the call; it is replaced as a whole, so that nothing
of the previously active session remains, when the first snapshot is
delivered to the callback (chat elements present), which leaves the last
min(n, 20) messages of that snapshot. -/
theorem window_rebuilt_on_switch (s : State) (sessionId : String)
    (snapshot : List MessageData) :
    (startNewUnsavedChat s).shortTerm = [] ∧
    (selectSession s sessionId).shortTerm = s.shortTerm ∧
    (s.chatBox = true → s.chatBoxWrapper = true →
      (onMessagesSnapshot (selectSession s sessionId) snapshot).shortTerm
        = (snapshot.drop (snapshot.length - min snapshot.length 20)).map windowEntry) := by
  refine ⟨rfl, selectSession_shortTerm s sessionId, ?_⟩
  intro hBox hWrapper
  have hb : (selectSession s sessionId).chatBox = true := by
    unfold selectSession
    split
    · exact hBox
    · rw [(loadChatHistory_elements _ _).1]; exact hBox
  have hw : (selectSession s sessionId).chatBoxWrapper = true := by
    unfold selectSession
    split
    · exact hWrapper
    · rw [(loadChatHistory_elements _ _).2]; exact hWrapper
  unfold onMessagesSnapshot
  simp only [hb, hw, Bool.not_true, Bool.or_self, Bool.false_eq_true, if_false]
  rw [foldl_addMessage _ _ (by simp [clearShortTerm])]
  simp only [clearShortTerm, List.nil_append, List.length_map, List.map_drop]
  congr 1
  omega

/-- C15, a witness of `window_rebuilt_on_switch`: the first snapshot of the
selected session replaces a window that held an entry of the previous one. -/
theorem window_rebuilt_on_switch_witness :
    (onMessagesSnapshot
        (selectSession
          { currentUserId := some "u", activeSessionId := some "A",
            shortTerm := [{ sender := "user", content := "asked in A" }] } "B")
        [{ sender := "bot", type := "text", content := "said in B" }]).shortTerm
      = [{ sender := "bot", content := "said in B" }] :=
  (window_rebuilt_on_switch
    { currentUserId := some "u", activeSessionId := some "A",
      shortTerm := [{ sender := "user", content := "asked in A" }] } "B"
    [{ sender := "bot", type := "text", content := "said in B" }]).2.2 rfl rfl

/-- C15: a counterexample.  A signed-in user whose window holds an entry of
the active session A selects session B: immediately after `selectSession`
returns B is active and the window still holds the entry of A. -/
theorem selectSession_keeps_previous_window :
    (selectSession
        { currentUserId := some "u", activeSessionId := some "A",
          shortTerm := [{ sender := "user", content := "asked in A" }] } "B").activeSessionId
      = some "B" ∧
    (selectSession
        { currentUserId := some "u", activeSessionId := some "A",
          shortTerm := [{ sender := "user", content := "asked in A" }] } "B").shortTerm
      = [{ sender := "user", content := "asked in A" }] := by
  decide

/-- A registry without live listeners has no live listener to list. -/
theorem AllDead.liveSubs_eq_nil {l : List Subscription} (hd : AllDead l) : liveSubs l = [] := by
  unfold liveSubs
  rw [List.filter_eq_nil_iff]
  intro x hx
  obtain ⟨j, hj⟩ := List.getElem?_of_mem hx
  simp [hd j x hj]

/-- C16, amended: starting with no listener, after any sequence of events, the
transition to logged-out (`updateUIToLoggedOutState`) invokes the cancel
handles of both kinds so that no listener is live, and sets `currentUserId`
and `activeSessionId` to `null`; it leaves `conversationMemory.shortTerm`
and `conversationMemory.longTerm` as they were. -/
theorem logout_cancels_listeners_and_keeps_caches (s0 : State) (tasks : List SaveTask)
    (events : List Event) :
    let before := (System.run
      { state := { s0 with messagesUnsubscribe := none, sessionsUnsubscribe := none,
                           messageSubs := [], sessionSubs := [] },
        tasks := tasks } events).state
    liveSubs (updateUIToLoggedOutState before).messageSubs = [] ∧
    liveSubs (updateUIToLoggedOutState before).sessionSubs = [] ∧
    (updateUIToLoggedOutState before).currentUserId = none ∧
    (updateUIToLoggedOutState before).activeSessionId = none ∧
    (updateUIToLoggedOutState before).shortTerm = before.shortTerm ∧
    (updateUIToLoggedOutState before).longTerm = before.longTerm := by
  intro before
  have h : before.Inv :=
    System.events_inv _ _ ⟨by intro j x hx; simp at hx, by intro j x hx; simp at hx⟩
  exact ⟨h.1.allDead_invoke.liveSubs_eq_nil, h.2.allDead_invoke.liveSubs_eq_nil,
    rfl, rfl, rfl, rfl⟩

/-- C16: a counterexample.  A state whose window holds an entry and whose
long-term notes hold a note: after `updateUIToLoggedOutState` both are still
there. -/
theorem logout_keeps_caches :
    (updateUIToLoggedOutState
        { currentUserId := some "u", activeSessionId := some "A",
          shortTerm := [{ sender := "user", content := "hi" }],
          longTerm := [("A", "correction-M", "wrong year")] }).shortTerm
      = [{ sender := "user", content := "hi" }] ∧
    (updateUIToLoggedOutState
        { currentUserId := some "u", activeSessionId := some "A",
          shortTerm := [{ sender := "user", content := "hi" }],
          longTerm := [("A", "correction-M", "wrong year")] }).longTerm
      = [("A", "correction-M", "wrong year")] := by
  decide

/-! ## Restoring the last active session (C17) -/

/-- `selectSession` of a non-empty id ends with that session active. -/
theorem selectSession_active (s : State) (sessionId : String) (h : sessionId ≠ "") :
    (selectSession s sessionId).activeSessionId = some sessionId := by
  by_cases ha : s.activeSessionId = some sessionId
  · unfold selectSession
    simp [ha]
  · exact selectSession_activeSessionId s sessionId h ha

/-- `loadChatSessions` touches only the session-list registry and its handle. -/
theorem loadChatSessions_frame (s : State) :
    (loadChatSessions s).sessionStorage = s.sessionStorage ∧
    (loadChatSessions s).messageSubs = s.messageSubs ∧
    (loadChatSessions s).activeSessionId = s.activeSessionId := by
  unfold loadChatSessions
  split <;> exact ⟨rfl, rfl, rfl⟩

/-- C17: with v the stored last-active value and whatever handlers run while
the existence check is pending: when v is non-empty, not the sentinel, and
the check answers that the session exists, `loadUserSessionsAndData` ends
with `activeSessionId` = v; when the check answers that it is absent, or
when v is missing, empty or the sentinel (no check is made), it ends with
`activeSessionId` = "TEMP_NEW_SESSION" and the stored value removed; so,
for v other than the sentinel and a check that answers, it ends with
`activeSessionId` = v only if v is non-empty and reported to exist; and the
part that runs before the check answers opens no message-list listener. -/
theorem restore_checks_existence_first (check : ExistenceCheck) (s : State) :
    (∀ v : String, s.sessionStorage = some v → v ≠ "" → v ≠ TEMP_NEW_SESSION →
      check.answer = some true →
      (loadUserSessionsAndData check s).activeSessionId = some v) ∧
    (∀ v : String, s.sessionStorage = some v → v ≠ "" → v ≠ TEMP_NEW_SESSION →
      check.answer = some false →
      (loadUserSessionsAndData check s).activeSessionId = some TEMP_NEW_SESSION ∧
      (loadUserSessionsAndData check s).sessionStorage = none) ∧
    (s.sessionStorage = none ∨ s.sessionStorage = some "" ∨
        s.sessionStorage = some TEMP_NEW_SESSION →
      (loadUserSessionsAndData check s).activeSessionId = some TEMP_NEW_SESSION ∧
      (loadUserSessionsAndData check s).sessionStorage = none) ∧
    (∀ v : String, s.sessionStorage = some v → v ≠ TEMP_NEW_SESSION →
      check.answer ≠ none →
      (loadUserSessionsAndData check s).activeSessionId = some v →
      v ≠ "" ∧ check.answer = some true) ∧
    (loadUserSessionsAndData.start s).1.messageSubs = s.messageSubs := by
  have hst := (loadChatSessions_frame s).1
  have hstart : ∀ v : String, s.sessionStorage = some v → v ≠ "" → v ≠ TEMP_NEW_SESSION →
      loadUserSessionsAndData.start s = (loadChatSessions s, some v) := by
    intro v hv h1 h2
    simp [loadUserSessionsAndData.start, hst, hv, h1, h2]
  have hyes : ∀ v : String, s.sessionStorage = some v → v ≠ "" → v ≠ TEMP_NEW_SESSION →
      check.answer = some true →
      (loadUserSessionsAndData check s).activeSessionId = some v := by
    intro v hv h1 h2 ha
    simp only [loadUserSessionsAndData, hstart v hv h1 h2, ha,
      loadUserSessionsAndData.answered, if_true]
    exact selectSession_active _ _ h1
  have hno : ∀ v : String, s.sessionStorage = some v → v ≠ "" → v ≠ TEMP_NEW_SESSION →
      check.answer = some false →
      (loadUserSessionsAndData check s).activeSessionId = some TEMP_NEW_SESSION ∧
      (loadUserSessionsAndData check s).sessionStorage = none := by
    intro v hv h1 h2 ha
    simp only [loadUserSessionsAndData, hstart v hv h1 h2, ha,
      loadUserSessionsAndData.answered]
    exact ⟨rfl, rfl⟩
  have hnone : s.sessionStorage = none ∨ s.sessionStorage = some "" ∨
        s.sessionStorage = some TEMP_NEW_SESSION →
      (loadUserSessionsAndData check s).activeSessionId = some TEMP_NEW_SESSION ∧
      (loadUserSessionsAndData check s).sessionStorage = none := by
    intro h
    rcases h with h | h | h <;>
      simp [loadUserSessionsAndData, loadUserSessionsAndData.start, hst, h, startNewUnsavedChat,
        clearShortTerm]
  refine ⟨hyes, hno, hnone, ?_, ?_⟩
  · intro v hv hT hans hfinal
    by_cases h1 : v = ""
    · have := (hnone (Or.inr (Or.inl (by rw [hv, h1])))).1
      rw [this, h1] at hfinal
      exact absurd hfinal (by decide)
    · refine ⟨h1, ?_⟩
      cases hc : check.answer with
      | none => exact absurd hc hans
      | some found =>
        cases found with
        | true => rfl
        | false =>
          have := (hno v hv h1 hT hc).1
          rw [this] at hfinal
          exact absurd (Option.some.inj hfinal).symm hT
  · simp only [loadUserSessionsAndData.start]
    cases (loadChatSessions s).sessionStorage with
    | none => exact (loadChatSessions_frame s).2.1
    | some v =>
      simp only []
      split
      · exact (loadChatSessions_frame s).2.1
      · exact (loadChatSessions_frame s).2.1

/-- C17, a witness of `restore_checks_existence_first`: the stored id S9 is
reported to exist and becomes the active session. -/
theorem restore_checks_existence_first_witness :
    (loadUserSessionsAndData ⟨[], some true⟩
        { currentUserId := some "u", sessionStorage := some "S9" }).activeSessionId
      = some "S9" :=
  (restore_checks_existence_first ⟨[], some true⟩
    { currentUserId := some "u", sessionStorage := some "S9" }).1
    "S9" rfl (by decide) (by decide) rfl

/-! ## The verification pass (C18, C19) -/

/-- `includes` holds exactly when the keyword is a contiguous part of the string. -/
theorem includes_iff (v kw : String) : includes v kw = true ↔ kw.toList <:+: v.toList := by
  unfold includes
  rw [List.any_eq_true, List.infix_iff_prefix_suffix]
  constructor
  · rintro ⟨t, ht, hp⟩
    exact ⟨t, List.isPrefixOf_iff_prefix.mp hp, (List.mem_tails _ _).mp ht⟩
  · rintro ⟨t, hp, ht⟩
    exact ⟨t, (List.mem_tails _ _).mpr ht, List.isPrefixOf_iff_prefix.mpr hp⟩

set_option maxRecDepth 100000 in
/-- Changing the case of an ASCII character keeps it ASCII and keeps its lower case. -/
theorem flipCase_ascii_fin : ∀ n : Fin 128,
    (flipCase (Char.ofNat n.val)).toNat < 128 ∧
    (flipCase (Char.ofNat n.val)).toLower = (Char.ofNat n.val).toLower := by
  decide

/-- A character outside ASCII is no ASCII letter: changing case leaves it. -/
theorem flipCase_other (c : Char) (h : ¬ c.toNat < 128) : flipCase c = c := by
  have hu : c.isUpper = false := by
    simp only [Char.isUpper, Bool.and_eq_false_imp, decide_eq_true_eq, decide_eq_false_iff_not]
    intro _
    show ¬ c.val.toNat ≤ 90
    have : c.val.toNat = c.toNat := rfl
    omega
  have hl : c.isLower = false := by
    simp only [Char.isLower, Bool.and_eq_false_imp, decide_eq_true_eq, decide_eq_false_iff_not]
    intro _
    show ¬ c.val.toNat ≤ 122
    have : c.val.toNat = c.toNat := rfl
    omega
  simp [flipCase, hu, hl]

/-- Changing the case of a character does not change what `toLowerCase`
makes of it. -/
theorem lower_flipCase (lowerOther : Char → List Char) (c : Char) :
    (if (flipCase c).toNat < 128 then [(flipCase c).toLower] else lowerOther (flipCase c))
      = (if c.toNat < 128 then [c.toLower] else lowerOther c) := by
  by_cases h : c.toNat < 128
  · have := flipCase_ascii_fin ⟨c.toNat, h⟩
    simp only [Char.ofNat_toNat] at this
    simp [this.1, this.2, h]
  · rw [flipCase_other c h]

/-- Changing the case at marked positions does not change the lower-cased
characters of a list. -/
theorem flatMap_lower_changeCaseList (lowerOther : Char → List Char) (l : List Char) :
    ∀ marks : List Bool,
      (changeCaseList l marks).flatMap
        (fun c => if c.toNat < 128 then [c.toLower] else lowerOther c)
      = l.flatMap (fun c => if c.toNat < 128 then [c.toLower] else lowerOther c) := by
  induction l with
  | nil => intro marks; rfl
  | cons c cs ih =>
    intro marks
    cases marks with
    | nil => rfl
    | cons m ms =>
      simp only [changeCaseList, List.flatMap_cons, ih ms]
      cases m with
      | true => simp only [if_true, lower_flipCase]
      | false => rfl

/-- Changing the case of ASCII letters does not change the lower-cased string. -/
theorem toLowerCase_changeCase (lowerOther : Char → List Char) (v : String)
    (marks : List Bool) :
    toLowerCase lowerOther (changeCase v marks) = toLowerCase lowerOther v := by
  show String.mk ((changeCaseList v.toList marks).flatMap
      (fun c => if c.toNat < 128 then [c.toLower] else lowerOther c)) = _
  rw [flatMap_lower_changeCaseList]
  rfl

/-- C18: for every query q, `requiresVerification(q)` is true exactly when one
of the ten keywords "fact", "statistic", "number", "historical",
"scientific", "medical", "technical", "figure", "data", "research" is a
contiguous run of characters of the lower-cased q (every ASCII character of q
replaced by its lower case, every other character by what the built-in maps
it to); so the result does not change when the case of ASCII letters of q is
changed, at any set of positions; `verifyAndEnhanceResponse` issues a second
completion call, and only one, exactly when the first response has text and
`requiresVerification(q)` is true; and each keyword written in capitals is
found, while "Hello there", "fac t" and the empty query are not matched. -/
theorem verification_is_keyword_driven (lowerOther : Char → List Char) (q : String) :
    (requiresVerification lowerOther q = true ↔
      ∃ kw ∈ ["fact", "statistic", "number", "historical", "scientific",
              "medical", "technical", "figure", "data", "research"],
        kw.toList <:+:
          q.toList.flatMap (fun c => if c.toNat < 128 then [c.toLower] else lowerOther c)) ∧
    (∀ marks : List Bool,
      requiresVerification lowerOther (changeCase q marks) = requiresVerification lowerOther q) ∧
    (∀ (call : List Content → Except JsError (Option Body)) (apiResponse : Option Body),
      ((verifyAndEnhanceResponse lowerOther call apiResponse q).calls.length = 1 ↔
        ((∃ (first : Body) (text : String), apiResponse = some first ∧ textOf first = some text) ∧
          requiresVerification lowerOther q = true)) ∧
      (verifyAndEnhanceResponse lowerOther call apiResponse q).calls.length ≤ 1) ∧
    (requiresVerification lowerOther "Any FACTS about it?" = true ∧
      requiresVerification lowerOther "STATISTIC" = true ∧
      requiresVerification lowerOther "a Number" = true ∧
      requiresVerification lowerOther "HISTORICAL" = true ∧
      requiresVerification lowerOther "Scientific" = true ∧
      requiresVerification lowerOther "MEDICAL" = true ∧
      requiresVerification lowerOther "TECHNICAL" = true ∧
      requiresVerification lowerOther "FIGURE" = true ∧
      requiresVerification lowerOther "metaDATA" = true ∧
      requiresVerification lowerOther "RESEARCH" = true ∧
      requiresVerification lowerOther "Hello there" = false ∧
      requiresVerification lowerOther "fac t" = false ∧
      requiresVerification lowerOther "" = false ∧
      toLowerCase lowerOther "Any FACTS about it?" = "any facts about it?") := by
  refine ⟨?_, ?_, ?_, ?_⟩
  · unfold requiresVerification
    rw [List.any_eq_true]
    constructor
    · rintro ⟨kw, hk, hi⟩
      exact ⟨kw, hk, (includes_iff _ _).mp hi⟩
    · rintro ⟨kw, hk, hi⟩
      exact ⟨kw, hk, (includes_iff _ _).mpr hi⟩
  · intro marks
    unfold requiresVerification
    rw [toLowerCase_changeCase]
  · intro call apiResponse
    cases apiResponse with
    | none => simp [verifyAndEnhanceResponse]
    | some first =>
      cases ht : textOf first with
      | none => simp [verifyAndEnhanceResponse, ht]
      | some text =>
        by_cases hr : requiresVerification lowerOther q = true
        · simp only [verifyAndEnhanceResponse, ht, hr, if_true]
          split
          · simp [ht]
          · simp [ht]
          · split <;> simp [ht]
        · simp [verifyAndEnhanceResponse, ht, hr]
  · refine ⟨?_, ?_, ?_, ?_, ?_, ?_, ?_, ?_, ?_, ?_, ?_, ?_, ?_, ?_⟩ <;> rfl

/-- What the verification pass returns when its call settles: the verified
text when the second response has text, the original text when it is an
object without text. -/
theorem verification_result_when_call_settles (lowerOther : Char → List Char)
    (call : List Content → Except JsError (Option Body)) (first verified : Body)
    (text userQuery : String)
    (hFirst : textOf first = some text)
    (hQuery : requiresVerification lowerOther userQuery = true)
    (hCall : call [{ role := "user", parts := [Part.text (verificationPrompt userQuery text)] }]
      = Except.ok (some verified)) :
    (verifyAndEnhanceResponse lowerOther call (some first) userQuery).result
      = Except.ok ((textOf verified).getD text) := by
  simp only [verifyAndEnhanceResponse, hFirst, hQuery, if_true, hCall]
  cases textOf verified <;> rfl

/-- C19: the code at the failing input.  The first response carries the text
"t", the query "a fact" requires verification, and the verification call
made through `callGeminiAPI` of lines 664-672 rejects (`fetch` rejects, or
`json()` rejects): `verifyAndEnhanceResponse` has no `try` around line 635
and throws instead of returning "t".  A body that is the JSON value `null`
makes line 639 throw as well. -/
theorem verification_rejection_propagates :
    (verifyAndEnhanceResponse (fun c => [c])
        (Verify.callGeminiAPI { geminiApiUrl := "https://example.test", fetch := fun _ => none })
        (some { candidates := some [{ content := some { parts := some [{ text := some "t" }] } }] })
        "a fact").result = Except.error JsError.rejected ∧
    (verifyAndEnhanceResponse (fun c => [c])
        (Verify.callGeminiAPI
          { geminiApiUrl := "https://example.test",
            fetch := fun _ => some ⟨true, JsonResult.rejects⟩ })
        (some { candidates := some [{ content := some { parts := some [{ text := some "t" }] } }] })
        "a fact").result = Except.error JsError.rejected ∧
    (verifyAndEnhanceResponse (fun c => [c])
        (Verify.callGeminiAPI
          { geminiApiUrl := "https://example.test",
            fetch := fun _ => some ⟨true, JsonResult.null⟩ })
        (some { candidates := some [{ content := some { parts := some [{ text := some "t" }] } }] })
        "a fact").result = Except.error JsError.typeError ∧
    requiresVerification (fun c => [c]) "a fact" = true := by
  refine ⟨?_, ?_, ?_, ?_⟩ <;> rfl

end ChatIQ
